import Mathlib

/-!
Verification of the DeciPhish phishing-detection pipeline.

This development gives a shallow embedding of the decision pipeline of the
repository (`app/pipeline/phishing_pipeline.py`, `app/chains/phishing_detection_chain.py`,
`app/core/whitelist.py`, `app/services/phishing_detection_cache_service.py`,
`app/services/brand_database_service.py`, `app/services/brand_service.py` and the
collaborator wrappers they call) and proves properties of the embedded code.

External collaborators (HTTP fetch, the CRP sequence classifier, the CLIP
favicon index, the Gemini text classifier, domain discovery, the screenshot
backends and the SQL database) are modelled as oracles carried by an
environment record; the Python `try/except` structure of the sources is
embedded explicitly, with `Except` marking calls that can raise.
-/

set_option maxRecDepth 4096

/-- Python-style check that list `pat` occurs as a prefix of `l`. -/
def startsChars : List Char → List Char → Bool
  | [], _ => true
  | _ :: _, [] => false
  | a :: as, b :: bs => a == b && startsChars as bs

/-- Python-style check that list `pat` occurs as a contiguous sublist of `l`. -/
def infixChars (pat : List Char) : List Char → Bool
  | [] => startsChars pat []
  | c :: rest => startsChars pat (c :: rest) || infixChars pat rest

/-- Embeds the Python expression `pat in s` on strings. -/
def strContains (s pat : String) : Bool :=
  infixChars pat.toList s.toList

/-- Embeds the Python expression `s.startswith(pat)`. -/
def strStarts (s pat : String) : Bool :=
  startsChars pat.toList s.toList

/-- Python truthiness of a string: non-empty. -/
def strTruthy (s : String) : Bool :=
  !s.toList.isEmpty

/-- Python truthiness of an optional string (`None` and `""` are falsy). -/
def optStrTruthy : Option String → Bool
  | none => false
  | some s => strTruthy s

/-- Lower-cases a string (character-list implementation of `str.lower()`). -/
def strLower (s : String) : String :=
  String.mk (s.toList.map Char.toLower)

/-- First `n` characters of a string (`s[:n]`). -/
def strTake (s : String) (n : Nat) : String :=
  String.mk (s.toList.take n)

/-- Strips leading and trailing whitespace (`s.strip()`). -/
def strTrim (s : String) : String :=
  String.mk
    (((s.toList.dropWhile Char.isWhitespace).reverse.dropWhile
        Char.isWhitespace).reverse)

/-- Splits a character list at a separator, keeping empty groups
(`s.split(sep)` for a one-character separator). -/
def splitSep (sep : Char) : List Char → List (List Char)
  | [] => [[]]
  | c :: cs =>
      if c = sep then [] :: splitSep sep cs
      else
        match splitSep sep cs with
        | [] => [[c]]
        | g :: gs => (c :: g) :: gs

/-- String-level one-character split. -/
def strSplitChar (s : String) (sep : Char) : List String :=
  (splitSep sep s.toList).map String.mk

/-- Characters after the first occurrence of `"://"`, if any. -/
def afterScheme : List Char → Option (List Char)
  | [] => none
  | c :: rest =>
      if startsChars [':', '/', '/'] (c :: rest) then some (rest.drop 2)
      else afterScheme rest

/-- Embeds `urllib.parse.urlparse(url).netloc`: the part after `"://"` up to the
first `/`, `?` or `#`; empty when the URL has no scheme separator. -/
def netlocOf (url : String) : String :=
  match afterScheme url.toList with
  | some rest =>
      String.mk (rest.takeWhile (fun c => c ≠ '/' && c ≠ '?' && c ≠ '#'))
  | none => ""

/-- One dotted group of an IPv4 literal: 1 to 3 digits. -/
def ipOctet (s : String) : Bool :=
  decide (1 ≤ s.length) && decide (s.length ≤ 3) && s.toList.all Char.isDigit

/-- Embeds the regex `^(\d{1,3}\.){3}\d{1,3}(:\d+)?$` from `is_suspicious_domain`. -/
def isIpHost (s : String) : Bool :=
  let hostPort := strSplitChar s ':'
  let hostOk := fun (h : String) =>
    let gs := strSplitChar h '.'
    decide (gs.length = 4) && gs.all ipOctet
  match hostPort with
  | [h] => hostOk h
  | [h, p] => hostOk h && decide (1 ≤ p.length) && p.toList.all Char.isDigit
  | _ => false

/-- The `suspicious_patterns` list of `is_suspicious_domain`, in source order. -/
def suspiciousPatterns : List String :=
  ["duckdns.org", "ngrok.io", "ngrok.com", "localtunnel.me",
   "serveo.net", "pagekite.me", "herokuapp.com",
   "tk", "ml", "ga", "cf", "freenom.com",
   "bit.ly", "tinyurl.com", "short.link", "t.co"]

/-- The allow-listed subdomain words of the randomness heuristic. -/
def allowedSubdomainWords : List String :=
  ["www", "mail", "api", "app", "mobile", "secure", "login", "admin", "shop", "store"]

/-- Embeds `is_suspicious_domain` from `app/pipeline/phishing_pipeline.py`:
IP-literal check first, then the substring pattern scan in list order, then the
consonant-heavy random-subdomain heuristic. -/
def is_suspicious_domain (url : String) : Bool × String :=
  let domain := strLower (netlocOf url)
  if isIpHost domain then
    (true, "IP 주소 사용")
  else
    match suspiciousPatterns.find? (fun p => strContains domain p) with
    | some p => (true, "의심스러운 도메인 패턴: " ++ p)
    | none =>
        let parts := strSplitChar domain '.'
        if 2 ≤ parts.length then
          let subdomain := parts.headD ""
          if 6 ≤ subdomain.length
              && !(allowedSubdomainWords.any (fun w => strContains subdomain w)) then
            let consonantCount :=
              subdomain.toList.countP (fun c => "bcdfghjklmnpqrstvwxyz".toList.contains c)
            let vowelCount :=
              subdomain.toList.countP (fun c => "aeiou".toList.contains c)
            if vowelCount * 2 < consonantCount || 8 ≤ subdomain.length then
              (true, "무작위 문자열 패턴의 서브도메인")
            else (false, "")
          else (false, "")
        else (false, "")

/-- Host of a URL for registrable-domain extraction: the netloc without any
port, lowercased (DNS names are case-insensitive). -/
def hostOf (url : String) : String :=
  strLower (String.mk ((netlocOf url).toList.takeWhile (fun c => c ≠ ':')))

/-- Representative two-label public suffixes, modelling the public-suffix list
consulted by `tldextract`. -/
def twoLabelSuffixes : List String :=
  ["co.uk", "ac.uk", "co.kr", "or.kr", "co.jp", "ne.jp", "com.au", "com.br", "com.cn"]

/-- Splits a character list at the dots, keeping empty groups (the label
decomposition of a host name). -/
def splitDots : List Char → List (List Char) :=
  splitSep '.'

/-- Modelled collaborator: `tldextract.extract` on a host, reduced to the pair
(registrable label, public suffix); `none` when the host has no dot-separated
domain-plus-suffix shape (mirrors empty `ext.domain` or `ext.suffix`). -/
def tldxSplit (host : String) : Option (String × String) :=
  match ((splitDots host.toList).map String.mk).reverse with
  | last :: prev :: rest =>
      if twoLabelSuffixes.contains (prev ++ "." ++ last) then
        match rest with
        | d :: _ => if strTruthy d then some (d, prev ++ "." ++ last) else none
        | [] => none
      else if strTruthy prev && strTruthy last then some (prev, last) else none
  | _ => none

/-- Modelled from the spec: `extract_domain` is imported from `app.core.utils`,
a module that is not among the provided sources; per §4.2/§4.5 of the spec the
pipeline compares against "the url's registrable domain" (public-suffix aware),
so the missing helper is modelled as registrable-root-domain extraction, with
the raw host as fallback when no suffix split exists. -/
def extract_domain (url : String) : String :=
  let h := hostOf url
  match tldxSplit h with
  | some (d, s) => d ++ "." ++ s
  | none => h

/-- Embeds `extract_root_domain` from `app/core/whitelist.py`: apply the
`tldextract` model to `extract_domain`'s output, falling back to that output
when domain or suffix is empty. -/
def extract_root_domain (url : String) : String :=
  let netloc := extract_domain url
  match tldxSplit netloc with
  | some (d, s) => d ++ "." ++ s
  | none => netloc

/-- Embeds `domain_match` from `app/pipeline/phishing_pipeline.py`:
`brand_domain in extract_domain(url)`. -/
def domain_match (url brand_domain : String) : Bool :=
  strContains (extract_domain url) brand_domain

/-- Definition following the spec's words (§4.5): "`domain_match(url,
brand_domain) := brand_domain is a substring of url's registrable domain`",
with the registrable domain computed by the codebase's public-suffix-aware
extractor. -/
def spec_domain_match (url brand_domain : String) : Bool :=
  strContains (extract_root_domain url) brand_domain

/-- A redirect descriptor, mirroring the `redirect_analysis` dict of
`get_final_url`. -/
structure RedirectAnalysis where
  has_redirect : Bool := false
  redirect_count : Nat := 0
  suspicious_original : Bool := false
  suspicious_reason : String := ""
  redirect_chain : List String := []
deriving Repr, DecidableEq

/-- Top hit of the CLIP favicon index (`predict`'s best result). -/
structure BrandHit where
  name : String
  domain : String
  similarity : ℚ
deriving Repr, DecidableEq

/-- Result of the Gemini text-brand extraction. -/
structure TextHit where
  name : String
  domain : String
deriving Repr, DecidableEq

/-- A row of the `tb_brand_info` registry table. -/
structure DbBrand where
  brand_name : String
  officialDomain : Option String
  brand_alias : List String := []
deriving Repr, DecidableEq

/-- The dict returned by `check_brand_exists`. -/
structure BrandInfo where
  name : String
  domain : Option String
  aliases : List String
deriving Repr, DecidableEq

/-- The dict returned by `check_whitelist` on a hit. -/
structure WlHit where
  brand : String
  domain : String
deriving Repr, DecidableEq

/-- A row of the `phishing_detections` table (the fields the pipeline reads
back or the claims mention). Newer rows sit earlier in `Db.detections`,
mirroring `ORDER BY created_at DESC`. -/
structure DetRow where
  id : Nat
  url : String
  user_id : Option Nat
  is_phish : Nat
  reason : String
  detected_brand : String
  confidence : ℚ
  is_crp : Bool
  created_at : Nat
deriving Repr, DecidableEq

/-- The shared database state: brand registry and detection/cache store. -/
structure Db where
  brands : List DbBrand := []
  detections : List DetRow := []
deriving Repr, DecidableEq

/-- The result dict a pipeline run returns. Optional fields model dict keys
that are only sometimes set. -/
structure DetectionResult where
  is_phish : Nat
  reason : String
  detected_brand : Option String := none
  similarity : Option ℚ := none
  official_domain : Option String := none
  crp_detected : Option Bool := none
  is_crp : Option Bool := none
  original_url : Option String := none
  final_url : Option String := none
  redirect_analysis : Option RedirectAnalysis := none
  has_screenshot : Option Bool := none
  detection_id : Option Nat := none
  from_cache : Bool := false
deriving Repr, DecidableEq

/-- Oracle environment for one run: the outcome of each raw external call.
`Except.error` marks the call raising an exception. -/
structure Env where
  fetch : Except Unit (String × List String)
  crp : Except Unit Bool
  faviconPredict : Except Unit (Option BrandHit)
  gemini : Except Unit (Option String)
  brandListOk : Bool
  brandLookupOk : Bool
  searchDomain : Option String
  saveBrandOk : Bool
  cacheOk : Bool
  screenshot : Except Unit (Option String)
  persist : Except Unit Nat
  now : Nat
  ttl : Nat

/-- Effect counters accumulated by a run. -/
structure Trace where
  crpCalls : Nat := 0
  persistCalls : Nat := 0
deriving Repr, DecidableEq

/-- Outcome of a whole run: result (or uncaught exception), updated database,
effect counters. -/
structure RunOut where
  outcome : Except Unit DetectionResult
  db : Db
  trace : Trace

/-- Embeds `get_final_url`: the original URL is first classified by
`is_suspicious_domain` (inside the `try`), then the redirect-following GET
runs; any fetch exception degrades to the original URL with the suspicion
fields already filled and `has_redirect=false`. -/
def get_final_url (env : Env) (url : String) : String × RedirectAnalysis :=
  let s := is_suspicious_domain url
  let base : RedirectAnalysis :=
    { suspicious_original := s.1, suspicious_reason := s.2 }
  match env.fetch with
  | .error _ => (url, base)
  | .ok (final_url, history) =>
      if final_url ≠ url then
        (final_url,
          { base with
              has_redirect := true
              redirect_count := history.length
              redirect_chain := url :: (history ++ [final_url]) })
      else (final_url, base)

/-- The similarity threshold both call sites pass to the favicon detector. -/
def clipThreshold : ℚ := 999 / 1000

/-- Embeds `BrandLogoMatcher.detect_brand_from_favicon` (via the module-level
wrapper): every exception of the raw CLIP/FAISS prediction is caught inside the
service and becomes `None`; a hit is accepted only when the top similarity
reaches the threshold. -/
def detect_brand_from_favicon (env : Env) (threshold : ℚ) : Option BrandHit :=
  match env.faviconPredict with
  | .error _ => none
  | .ok none => none
  | .ok (some hit) => if threshold ≤ hit.similarity then some hit else none

/-- Embeds `extract_brand_from_text_gemini`: API failures are caught inside the
service and become `None`; an answer is accepted when non-empty and not
`"none"` (case-insensitive); the hit's domain is `extract_domain(url)`. -/
def extract_brand_from_text_gemini (env : Env) (url : String) : Option TextHit :=
  match env.gemini with
  | .error _ => none
  | .ok none => none
  | .ok (some answer) =>
      if strTruthy answer && strLower answer ≠ "none" then
        some { name := answer, domain := extract_domain url }
      else none

/-- Embeds `brand_loader.get_brand_list`: a database failure re-raises
(`BrandDataError`). -/
def get_brand_list (env : Env) (db : Db) : Except Unit (List DbBrand) :=
  if env.brandListOk then .ok db.brands else .error ()

/-- Embeds `check_whitelist` from `app/core/whitelist.py`: first registry row
whose truthy `domain` equals (case-insensitively) the URL's root domain. A
brand-list failure propagates. -/
def check_whitelist (env : Env) (db : Db) (url : String) :
    Except Unit (Option WlHit) :=
  match get_brand_list env db with
  | .error e => .error e
  | .ok brand_list =>
      let root_domain := extract_root_domain url
      .ok ((brand_list.find? (fun b =>
              optStrTruthy b.officialDomain
                && strLower (b.officialDomain.getD "") == root_domain)).map
            (fun b => { brand := b.brand_name, domain := b.officialDomain.getD "" }))

/-- Embeds `BrandService.check_brand_exists`: exact name lookup; every
exception is caught inside the service and becomes `None`. -/
def check_brand_exists (env : Env) (db : Db) (brand_name : String) :
    Option BrandInfo :=
  if env.brandLookupOk then
    (db.brands.find? (fun b => b.brand_name == brand_name)).map
      (fun b => { name := b.brand_name, domain := b.officialDomain,
                  aliases := b.brand_alias })
  else none

/-- Embeds `BrandDatabaseService.save_brand_info`: discover a domain
(`find_best_domain` catches its own failures and returns `None`), skip the
insert when a row with the same name (or, when a domain was found, the same
official domain) exists, else insert name with discovered domain or `""`;
any exception in the transaction is caught and reported as `False`. -/
def save_brand_info (env : Env) (db : Db) (brand_name : String) : Bool × Db :=
  if env.saveBrandOk then
    let official_domain := env.searchDomain
    let existing := db.brands.find? (fun b =>
      b.brand_name == brand_name
        || (optStrTruthy official_domain
              && b.officialDomain == some (official_domain.getD "")))
    match existing with
    | some _ => (true, db)
    | none =>
        (true,
          { db with brands := db.brands
              ++ [{ brand_name := brand_name,
                    officialDomain := some (official_domain.getD ""),
                    brand_alias := [] }] })
  else (false, db)

/-- Embeds `save_new_brand_to_database`: a `try`-wrapper around
`save_brand_info` (which already returns a Bool). -/
def save_new_brand_to_database (env : Env) (db : Db) (brand_name : String) :
    Bool × Db :=
  save_brand_info env db brand_name

/-- Embeds `PhishingDetectionCacheService.get_cached_result`: newest matching
row for the URL in the given user scope (`None` scope matches only rows with
`user_id IS NULL`) that is younger than the TTL cutoff; failures are caught
inside the service and become `None`. -/
def get_cached_result (env : Env) (db : Db) (url : String)
    (user_id : Option Nat) : Option DetectionResult :=
  if env.cacheOk then
    (db.detections.find? (fun row =>
        row.url == url && row.user_id == user_id
          && env.now - env.ttl < row.created_at)).map
      (fun row =>
        { is_phish := row.is_phish
          reason := row.reason
          detected_brand := some row.detected_brand
          similarity := some row.confidence
          is_crp := some row.is_crp
          detection_id := some row.id
          from_cache := true })
  else none

/-- Embeds the stored-reason construction of `save_detection_result`: the
redirect annotation is appended under a 200-character budget, then the whole
reason is truncated to 250 characters. -/
def storedReason (reason0 original_url final_url : String)
    (has_redirect : Bool) : String :=
  let reason :=
    if has_redirect && original_url ≠ final_url then
      let short_final := if 50 < final_url.length
        then strTake final_url 50 ++ "..." else final_url
      let redirect_text := " (redirected to " ++ short_final ++ ")"
      let max_len := 200 - redirect_text.length
      (if max_len < reason0.length then strTake reason0 max_len else reason0)
        ++ redirect_text
    else reason0
  strTake reason 250

/-- Embeds `PhishingDetectionCacheService.save_detection_result`: store under
the original URL when a redirect occurred, else under the final URL, in the
acting user's scope; any exception is caught and reported as `None` with no row
written. -/
def save_detection_result (env : Env) (db : Db) (url : String)
    (dr : DetectionResult) (user_id : Option Nat) : Option Nat × Db :=
  match env.persist with
  | .error _ => (none, db)
  | .ok rowid =>
      let original_url := dr.original_url.getD url
      let final_url := dr.final_url.getD url
      let has_redirect := ((dr.redirect_analysis.map
        (fun ra => ra.has_redirect)).getD false)
      let url_to_store := if has_redirect then original_url else final_url
      let row : DetRow :=
        { id := rowid
          url := url_to_store
          user_id := user_id
          is_phish := dr.is_phish
          reason := storedReason dr.reason original_url final_url has_redirect
          detected_brand := match dr.detected_brand with
            | some b => if strTruthy b then strTake b 100 else ""
            | none => ""
          confidence := dr.similarity.getD 0
          is_crp := (dr.crp_detected.getD false)
          created_at := env.now }
      (some rowid, { db with detections := row :: db.detections })

/-- Embeds `ScreenshotService.is_screenshot_needed`. -/
def is_screenshot_needed (url : String) : Bool :=
  let l := strLower url
  if ["localhost", "127.0.0.1", "192.168.", "10.0.", "file://", "ftp://",
      "data:"].any (fun p => strContains l p) then false
  else strStarts l "http://" || strStarts l "https://"

/-- Embeds `prepare_final_result`: attach redirect info (only when the URL
changed), the redirect analysis, and both CRP fields. -/
def prepare_final_result (result : DetectionResult)
    (original_url final_url : String) (ra : RedirectAnalysis)
    (crp_detected : Bool) : DetectionResult :=
  let result :=
    if original_url ≠ final_url then
      { result with original_url := some original_url,
                    final_url := some final_url }
    else result
  { result with
      redirect_analysis := some ra
      crp_detected := some crp_detected
      is_crp := some crp_detected }

/-- Embeds `capture_and_save_result`: best-effort screenshot (exceptions
caught), then — when saving — one `save_detection_result` attempt whose
returned id, if any, is attached to the result. The `Nat` component counts
persistence attempts. -/
def capture_and_save_result (env : Env) (db : Db) (url : String)
    (result : DetectionResult) (user_id : Option Nat) (save_to_db : Bool) :
    DetectionResult × Db × Nat :=
  let has_screenshot :=
    if is_screenshot_needed url then
      match env.screenshot with
      | .ok (some _) => true
      | _ => false
    else false
  let result := { result with has_screenshot := some has_screenshot }
  if save_to_db then
    let saved := save_detection_result env db url result user_id
    let result := match saved.1 with
      | some i => { result with detection_id := some i }
      | none => result
    (result, saved.2, 1)
  else (result, db, 0)

/-- Embeds `check_brand_and_domain_match`: registry lookup by name, then the
domain-match comparison; a missing row falls through (`None`), and a `None`
official domain raises a `TypeError` inside the function's `try`, which is
caught and also yields `None`. -/
def check_brand_and_domain_match (env : Env) (db : Db)
    (url detected_brand : String) : Option DetectionResult :=
  match check_brand_exists env db detected_brand with
  | none => none
  | some info =>
      match info.domain with
      | none => none
      | some d =>
          if domain_match url d then
            some { is_phish := 0, reason := "brand_domain_match",
                   detected_brand := some detected_brand, similarity := none }
          else
            some { is_phish := 1, reason := "brand_domain_mismatch",
                   detected_brand := some detected_brand, similarity := none }

/-- Embeds `handle_new_brand_detection`: persist a registry stub, re-read the
registry, then compare whichever official domain is known against the
resource's domain (Python truthiness on both sides), else emit the neutral
new-brand verdict. -/
def handle_new_brand_detection (env : Env) (db : Db)
    (url detected_brand : String) (detected_domain : Option String)
    (similarity : Option ℚ) (detection_method : String) :
    DetectionResult × Db :=
  let saved := save_new_brand_to_database env db detected_brand
  let save_success := saved.1
  let db := saved.2
  let db_brand_info := check_brand_exists env db detected_brand
  let official_domain : Option String :=
    match db_brand_info with
    | some info => info.domain
    | none => detected_domain
  let url_domain := extract_domain url
  if optStrTruthy official_domain && strTruthy url_domain then
    if strContains url_domain (official_domain.getD "") then
      ({ is_phish := 0
         reason := detection_method ++ "_new_brand_detected_and_domain_match"
         detected_brand := some detected_brand
         official_domain := official_domain
         similarity := similarity }, db)
    else
      ({ is_phish := 1
         reason := detection_method ++ "_new_brand_detected_but_domain_mismatch"
         detected_brand := some detected_brand
         official_domain := official_domain
         similarity := similarity }, db)
  else
    ({ is_phish := 0
       reason := detection_method
         ++ (if save_success then "_new_brand_detected_and_saved"
             else "_new_brand_detected")
       detected_brand := some detected_brand
       similarity := similarity }, db)

/-- Embeds the imperative orchestrator `phishing_detector_base64`:
redirect resolution, cache lookup (note: queried in the anonymous scope),
suspicious-redirect fast path, whitelist fast path, CRP recording, favicon
detection, text detection with registry reconciliation, no-brand fallback;
every terminal branch passes through `capture_and_save_result`. -/
def phishing_detector_base64 (env : Env) (db : Db)
    (url html favicon_b64 : String) (user_id : Option Nat)
    (save_to_db : Bool) : RunOut :=
  let fin0 := get_final_url env url
  let final_url := fin0.1
  let redirect_analysis := fin0.2
  let original_url := url
  let suspicious_redirect_detected :=
    redirect_analysis.suspicious_original && redirect_analysis.has_redirect
  let url := final_url
  let cache_url := if redirect_analysis.has_redirect then original_url else url
  match get_cached_result env db cache_url none with
  | some cached =>
      let cached :=
        if original_url ≠ url then
          { cached with original_url := some original_url
                        final_url := some url
                        redirect_analysis := some redirect_analysis }
        else cached
      ⟨.ok cached, db, {}⟩
  | none =>
  if suspicious_redirect_detected then
    let crp_detected := match env.crp with | .ok b => b | .error _ => false
    let brand_from_favicon :=
      if strTruthy favicon_b64 && strTruthy (strTrim favicon_b64) then
        detect_brand_from_favicon env clipThreshold
      else none
    let detected_brand :=
      match brand_from_favicon with
      | some hit => some hit.name
      | none =>
          (extract_brand_from_text_gemini env url).map (fun t => t.name)
    let result : DetectionResult :=
      { is_phish := 1
        reason := "suspicious_redirect: " ++ redirect_analysis.suspicious_reason
        detected_brand := detected_brand }
    let result :=
      prepare_final_result result original_url url redirect_analysis crp_detected
    let fin := capture_and_save_result env db url result user_id save_to_db
    ⟨.ok fin.1, fin.2.1, { crpCalls := 1, persistCalls := fin.2.2 }⟩
  else
  match check_whitelist env db url with
  | .error e => ⟨.error e, db, {}⟩
  | .ok whitelist_result =>
  let whitelist_brand := whitelist_result.map (fun w => w.brand)
  if optStrTruthy whitelist_brand then
    let result : DetectionResult :=
      { is_phish := 0
        reason := "whitelisted"
        detected_brand := whitelist_brand }
    let result :=
      prepare_final_result result original_url url redirect_analysis false
    let fin := capture_and_save_result env db url result user_id save_to_db
    ⟨.ok fin.1, fin.2.1, { crpCalls := 0, persistCalls := fin.2.2 }⟩
  else
  let crp_detected := match env.crp with | .ok b => b | .error _ => false
  let brand_from_favicon :=
    if strTruthy favicon_b64 && strTruthy (strTrim favicon_b64) then
      detect_brand_from_favicon env clipThreshold
    else none
  match brand_from_favicon with
  | some hit =>
      let result : DetectionResult :=
        if domain_match url hit.domain then
          { is_phish := 0, reason := "favicon_brand_domain_match",
            detected_brand := some hit.name, similarity := some hit.similarity }
        else
          { is_phish := 1, reason := "favicon_brand_domain_mismatch",
            detected_brand := some hit.name, similarity := some hit.similarity }
      let result :=
        prepare_final_result result original_url url redirect_analysis crp_detected
      let fin := capture_and_save_result env db url result user_id save_to_db
      ⟨.ok fin.1, fin.2.1, { crpCalls := 1, persistCalls := fin.2.2 }⟩
  | none =>
  match extract_brand_from_text_gemini env url with
  | some brand_from_text =>
      match check_brand_and_domain_match env db url brand_from_text.name with
      | some result =>
          let result :=
            prepare_final_result result original_url url redirect_analysis
              crp_detected
          let fin := capture_and_save_result env db url result user_id save_to_db
          ⟨.ok fin.1, fin.2.1, { crpCalls := 1, persistCalls := fin.2.2 }⟩
      | none =>
          let hn := handle_new_brand_detection env db url brand_from_text.name
            (some brand_from_text.domain) none "text"
          let result :=
            prepare_final_result hn.1 original_url url redirect_analysis
              crp_detected
          let fin := capture_and_save_result env hn.2 url result user_id save_to_db
          ⟨.ok fin.1, fin.2.1, { crpCalls := 1, persistCalls := fin.2.2 }⟩
  | none =>
      let result : DetectionResult :=
        { is_phish := 0, reason := "no_brand_detected", detected_brand := none }
      let result :=
        prepare_final_result result original_url url redirect_analysis
          crp_detected
      let fin := capture_and_save_result env db url result user_id save_to_db
      ⟨.ok fin.1, fin.2.1, { crpCalls := 1, persistCalls := fin.2.2 }⟩

/-- Chain-step embed of `_whitelist_result`: run CRP for the record, assemble
the whitelisted verdict, attach redirect info, then capture-and-save (the
chain always saves). -/
def chain_whitelist_result (env : Env) (db : Db)
    (url : String) (user_id : Option Nat)
    (redirect_analysis : RedirectAnalysis) (original_url : Option String)
    (wl : WlHit) : RunOut :=
  let crp_result := match env.crp with | .ok b => b | .error _ => false
  let result : DetectionResult :=
    { is_phish := 0
      reason := "whitelisted"
      detected_brand := some wl.brand
      is_crp := some crp_result
      crp_detected := some crp_result
      redirect_analysis := some redirect_analysis }
  let result :=
    if optStrTruthy original_url && (original_url.getD "") ≠ url then
      { result with original_url := original_url, final_url := some url }
    else result
  let fin := capture_and_save_result env db url result user_id true
  ⟨.ok fin.1, fin.2.1, { crpCalls := 1, persistCalls := fin.2.2 }⟩

/-- Embeds `LangChainPhishingDetector`'s chain (`_build_chain` plus
`_final_decision_step`, as driven by `ainvoke`): whitelist step (its failures
caught), else CRP step, favicon step, text step (only on favicon miss), final
decision, capture-and-save. A `None` registry domain on the registered-text
branch raises a `TypeError` that only `ainvoke`'s catch-all handles, yielding
the `langchain_error` fallback verdict. -/
def langchain_detect (env : Env) (db : Db)
    (url html favicon_b64 : String) (user_id : Option Nat)
    (redirect_analysis : RedirectAnalysis) (original_url : Option String) :
    RunOut :=
  let whitelist_result : Option WlHit :=
    match check_whitelist env db url with
    | .error _ => none
    | .ok w => w
  match whitelist_result with
  | some wl =>
      chain_whitelist_result env db url user_id redirect_analysis original_url wl
  | none =>
  let crp_result := match env.crp with | .ok b => b | .error _ => false
  let favicon_result :=
    if strTruthy favicon_b64 && strTruthy (strTrim favicon_b64) then
      detect_brand_from_favicon env clipThreshold
    else none
  let text_result :=
    match favicon_result with
    | some _ => none
    | none => extract_brand_from_text_gemini env url
  let finish := fun (core : DetectionResult) (db1 : Db) =>
    let result := { core with
      is_crp := some crp_result
      crp_detected := some crp_result
      redirect_analysis := some redirect_analysis }
    let result :=
      if optStrTruthy original_url && (original_url.getD "") ≠ url then
        { result with original_url := original_url, final_url := some url }
      else result
    let fin := capture_and_save_result env db1 url result user_id true
    RunOut.mk (.ok fin.1) fin.2.1 { crpCalls := 1, persistCalls := fin.2.2 }
  match favicon_result with
  | some hit =>
      let core : DetectionResult :=
        if domain_match url hit.domain then
          { is_phish := 0, reason := "favicon_brand_domain_match",
            detected_brand := some hit.name, similarity := some hit.similarity }
        else
          { is_phish := 1, reason := "favicon_brand_domain_mismatch",
            detected_brand := some hit.name, similarity := some hit.similarity }
      finish core db
  | none =>
  match text_result with
  | some t =>
      match check_brand_exists env db t.name with
      | some info =>
          match info.domain with
          | none =>
              ⟨.ok { is_phish := 0, reason := "langchain_error",
                     detected_brand := none },
                db, { crpCalls := 1, persistCalls := 0 }⟩
          | some official_domain =>
              let core : DetectionResult :=
                if domain_match url official_domain then
                  { is_phish := 0, reason := "text_brand_domain_match",
                    detected_brand := some t.name }
                else
                  { is_phish := 1, reason := "text_brand_domain_mismatch",
                    detected_brand := some t.name }
              finish core db
      | none =>
          let hn := handle_new_brand_detection env db url t.name
            (some t.domain) none "text"
          finish hn.1 hn.2
  | none =>
      finish { is_phish := 0, reason := "no_brand_detected",
               detected_brand := none } db

/-- Embeds `s.endswith(pat)`. -/
def strEnds (s pat : String) : Bool :=
  startsChars pat.toList.reverse s.toList.reverse

/-- The closed reason set the claim states for the BrandFusion →
DomainReconciliation stage (starred entries are method-prefixed families). -/
def claimedFusionReason (r : String) : Bool :=
  r == "favicon_brand_domain_match" || r == "favicon_brand_domain_mismatch"
    || r == "text_brand_domain_match" || r == "text_brand_domain_mismatch"
    || strEnds r "_new_brand_detected_and_domain_match"
    || strEnds r "_new_brand_detected_but_domain_mismatch"
    || strEnds r "_new_brand_detected"
    || strEnds r "_new_brand_detected_and_saved"

/-- The claimed set amended with the unprefixed reasons the imperative
pipeline's registered-text-brand path actually emits. -/
def amendedFusionReason (r : String) : Bool :=
  claimedFusionReason r
    || r == "brand_domain_match" || r == "brand_domain_mismatch"

section ConcreteInstances

/-- Baseline oracle environment with every collaborator succeeding neutrally. -/
def envBase : Env :=
  { fetch := .error ()
    crp := .ok false
    faviconPredict := .ok none
    gemini := .ok none
    brandListOk := true
    brandLookupOk := true
    searchDomain := none
    saveBrandOk := true
    cacheOk := true
    screenshot := .error ()
    persist := .ok 11
    now := 100
    ttl := 24 }

/-- Environment whose fetch redirects to `http://evil.com/`. -/
def envRedirect : Env :=
  { envBase with fetch := .ok ("http://evil.com/", []) }

/-- Environment whose fetch redirects `http://a.com/r` to `http://b.com/`. -/
def envToB : Env :=
  { envBase with fetch := .ok ("http://b.com/", []), persist := .ok 5 }

/-- Environment that fetches `http://b.com/` directly (no redirect). -/
def envAtB : Env :=
  { envBase with fetch := .ok ("http://b.com/", []), persist := .ok 6 }

/-- Environment where the text classifier answers `PayPal`, CRP fires, and
there is no redirect. -/
def envText : Env :=
  { envBase with crp := .ok true, gemini := .ok (some "PayPal") }

/-- Environment where all seven collaborators of claim C7 fail. -/
def envAllFail : Env :=
  { envBase with
      crp := .error ()
      faviconPredict := .error ()
      gemini := .error ()
      screenshot := .error ()
      persist := .error ()
      searchDomain := none }

/-- Empty database. -/
def dbEmpty : Db := {}

/-- Registry holding Google with official domain `google.com`. -/
def dbGoogle : Db :=
  { brands := [{ brand_name := "Google", officialDomain := some "google.com" }] }

/-- Registry holding PayPal with official domain `paypal.com`. -/
def dbPayPal : Db :=
  { brands := [{ brand_name := "PayPal", officialDomain := some "paypal.com" }] }

/-- Detection store holding one row recorded in user 7's scope. -/
def dbScoped : Db :=
  { detections := [{
      id := 1
      url := "http://a.com/r"
      user_id := some 7
      is_phish := 0
      reason := "x"
      detected_brand := ""
      confidence := 0
      is_crp := false
      created_at := 100 }] }

end ConcreteInstances

lemma startsChars_self_append (p t : List Char) :
    startsChars p (p ++ t) = true := by
  induction p with
  | nil => rfl
  | cons a as ih => simp [startsChars, ih]

lemma toList_append (a b : String) :
    (a ++ b).toList = a.toList ++ b.toList := by
  cases a
  cases b
  rfl

lemma mk_toList (s : String) : String.mk s.toList = s := by
  cases s
  rfl

lemma splitSep_ne_nil (sep : Char) (l : List Char) : splitSep sep l ≠ [] := by
  induction l with
  | nil => simp [splitSep]
  | cons c cs ih =>
      unfold splitSep
      by_cases h : c = sep
      · simp [h]
      · simp only [h, if_false]
        cases hs : splitSep sep cs with
        | nil => simp
        | cons g gs => simp

lemma splitSep_sep_not_mem {sep : Char} {l g : List Char}
    (hg : g ∈ splitSep sep l) : sep ∉ g := by
  induction l generalizing g with
  | nil =>
      simp [splitSep] at hg
      subst hg
      simp
  | cons c cs ih =>
      unfold splitSep at hg
      by_cases h : c = sep
      · rw [if_pos h] at hg
        rcases List.mem_cons.mp hg with h1 | h1
        · subst h1; simp
        · exact ih h1
      · rw [if_neg h] at hg
        cases hs : splitSep sep cs with
        | nil => exact absurd hs (splitSep_ne_nil sep cs)
        | cons g0 gs =>
            rw [hs] at hg
            rcases List.mem_cons.mp hg with h1 | h1
            · subst h1
              intro hmem
              rcases List.mem_cons.mp hmem with h2 | h2
              · exact h h2.symm
              · exact ih (hs ▸ List.mem_cons_self g0 gs) h2
            · exact ih (hs ▸ List.mem_cons_of_mem g0 h1)

lemma splitSep_of_not_mem {sep : Char} {l : List Char} (h : sep ∉ l) :
    splitSep sep l = [l] := by
  induction l with
  | nil => rfl
  | cons c cs ih =>
      have hc : c ≠ sep := fun hh => h (hh ▸ List.mem_cons_self c cs)
      have hcs : sep ∉ cs := fun hh => h (List.mem_cons_of_mem c hh)
      unfold splitSep
      rw [if_neg hc, ih hcs]

lemma splitSep_append {sep : Char} {xs : List Char} (ys : List Char)
    (h : sep ∉ xs) :
    splitSep sep (xs ++ sep :: ys) = xs :: splitSep sep ys := by
  induction xs with
  | nil => simp [splitSep]
  | cons c cs ih =>
      have hc : c ≠ sep := fun hh => h (hh ▸ List.mem_cons_self c cs)
      have hcs : sep ∉ cs := fun hh => h (List.mem_cons_of_mem c hh)
      show splitSep sep (c :: (cs ++ sep :: ys)) = (c :: cs) :: splitSep sep ys
      unfold splitSep
      rw [if_neg hc, ih hcs]
      simp [splitSep]
      cases ys <;> simp [splitSep]

lemma splitDots_dot_not_mem {l g : List Char}
    (hg : g ∈ splitDots l) : '.' ∉ g :=
  splitSep_sep_not_mem hg

lemma splitDots_of_not_mem {l : List Char} (h : '.' ∉ l) :
    splitDots l = [l] :=
  splitSep_of_not_mem h

lemma splitDots_append {xs : List Char} (ys : List Char) (h : '.' ∉ xs) :
    splitDots (xs ++ '.' :: ys) = xs :: splitDots ys :=
  splitSep_append ys h

lemma toList_mk (l : List Char) : (String.mk l).toList = l := rfl

lemma dot_append_toList (a b : String) :
    (a ++ "." ++ b).toList = a.toList ++ '.' :: b.toList := by
  rw [toList_append, toList_append]
  simp

lemma tldx_mem_dot_not_mem {h : String} {x : String} {l : List String}
    (hr : ((splitDots h.toList).map String.mk).reverse = l)
    (hx : x ∈ l) : '.' ∉ x.toList := by
  rw [← hr, List.mem_reverse] at hx
  rcases List.mem_map.mp hx with ⟨g, hg, rfl⟩
  rw [toList_mk]
  exact splitDots_dot_not_mem hg

lemma tldx_stable {h d s : String}
    (hh : tldxSplit h = some (d, s)) : tldxSplit (d ++ "." ++ s) = some (d, s) := by
  unfold tldxSplit at hh
  split at hh
  next last prev rest heq =>
    have hlast : '.' ∉ last.toList :=
      tldx_mem_dot_not_mem heq (List.mem_cons_self _ _)
    have hprev : '.' ∉ prev.toList :=
      tldx_mem_dot_not_mem heq (List.mem_cons_of_mem _ (List.mem_cons_self _ _))
    split at hh
    next hcont =>
      cases rest with
      | nil => exact absurd hh (by simp)
      | cons d0 rest2 =>
          have hd0 : '.' ∉ d0.toList :=
            tldx_mem_dot_not_mem heq
              (List.mem_cons_of_mem _ (List.mem_cons_of_mem _ (List.mem_cons_self _ _)))
          have hh2 : (if strTruthy d0 = true then some (d0, prev ++ "." ++ last)
              else none) = some (d, s) := hh
          cases htr : strTruthy d0 with
          | false => rw [htr] at hh2; exact absurd hh2 (by simp)
          | true =>
              rw [htr] at hh2
              simp only [if_true, Option.some.injEq, Prod.mk.injEq] at hh2
              obtain ⟨hd, hs⟩ := hh2
              subst hd
              subst hs
              unfold tldxSplit
              rw [dot_append_toList, dot_append_toList,
                  splitDots_append _ hd0, splitDots_append _ hprev,
                  splitDots_of_not_mem hlast]
              simp only [List.map_cons, List.map_nil, mk_toList, List.reverse_cons,
                List.reverse_nil, List.nil_append, List.singleton_append,
                List.cons_append]
              rw [hcont]
              simp [htr]
    next hcont =>
      have hcont2 : twoLabelSuffixes.contains (prev ++ "." ++ last) = false := by
        simpa using hcont
      cases htr : strTruthy prev && strTruthy last with
      | false => rw [htr] at hh; exact absurd hh (by simp)
      | true =>
          rw [htr] at hh
          simp only [if_true, Option.some.injEq, Prod.mk.injEq] at hh
          obtain ⟨hd, hs⟩ := hh
          subst hd
          subst hs
          unfold tldxSplit
          rw [dot_append_toList, splitDots_append _ hprev,
              splitDots_of_not_mem hlast]
          simp only [List.map_cons, List.map_nil, mk_toList, List.reverse_cons,
            List.reverse_nil, List.nil_append, List.singleton_append,
            List.cons_append]
          rw [hcont2]
          simp [htr]
  next =>
    exact absurd hh (by simp)

lemma extract_root_eq_extract (url : String) :
    extract_root_domain url = extract_domain url := by
  unfold extract_root_domain extract_domain
  cases h : tldxSplit (hostOf url) with
  | none => simp [h]
  | some ds =>
      cases ds with
      | mk d s =>
          simp only [h]
          rw [tldx_stable h]

/-- C5: `domain_match(url, brand_domain)` holds exactly when `brand_domain` is
a substring of the URL's registrable (public-suffix-aware root) domain — not of
the full host/netloc: the source's `extract_domain`-based predicate coincides
with the spec-side predicate built on the whitelist's root-domain extractor,
and on `fake-ebay.com.evil.net` the brand domain `ebay.com` is a substring of
the host yet `domain_match` is false. -/
theorem C5_domain_match_registrable :
    (∀ url brand_domain, domain_match url brand_domain
        = spec_domain_match url brand_domain)
      ∧ domain_match "https://fake-ebay.com.evil.net/login" "ebay.com" = false
      ∧ strContains (strLower (netlocOf "https://fake-ebay.com.evil.net/login"))
          "ebay.com" = true := by
  refine ⟨fun url brand_domain => ?_, by decide, by decide⟩
  unfold domain_match spec_domain_match
  rw [extract_root_eq_extract]

/-- C10: `is_suspicious_domain` flags a URL whenever any entry of its pattern
list — including the bare strings `tk`, `ml`, `ga`, `cf` — occurs as a
substring anywhere in the lowercased host, not only as its TLD or registered
domain; in particular host `gap.com`, which merely contains `ga`, is flagged
with that pattern's reason. -/
theorem C10_pattern_substring_suspicious :
    (∀ url p, p ∈ suspiciousPatterns →
        strContains (strLower (netlocOf url)) p = true →
        (is_suspicious_domain url).1 = true)
      ∧ is_suspicious_domain "http://gap.com/" =
          (true, "의심스러운 도메인 패턴: ga") := by
  constructor
  · intro url p hp hc
    unfold is_suspicious_domain
    by_cases hip : isIpHost (strLower (netlocOf url))
    · simp [hip]
    · simp only [hip, Bool.false_eq_true, if_false]
      cases hf : suspiciousPatterns.find?
          (fun q => strContains (strLower (netlocOf url)) q) with
      | some q => simp [hf]
      | none =>
          exfalso
          have h2 := List.find?_eq_none.mp hf p hp
          rw [hc] at h2
          exact h2 rfl
  · decide

/-- Witness for C10 at the concrete host `gap.com` and pattern `ga`. -/
theorem C10_pattern_substring_suspicious_witness :
    ("ga" ∈ suspiciousPatterns
        ∧ strContains (strLower (netlocOf "http://gap.com/")) "ga" = true)
      ∧ (is_suspicious_domain "http://gap.com/").1 = true :=
  ⟨⟨by decide, by decide⟩,
    C10_pattern_substring_suspicious.1 "http://gap.com/" "ga"
      (by decide) (by decide)⟩

lemma strTruthy_of_ne {s : String} (h : s ≠ "") : strTruthy s = true := by
  cases s with
  | mk l =>
      cases l with
      | nil => exact absurd rfl h
      | cons c cs => rfl

lemma strStarts_suspicious (x : String) :
    strStarts ("suspicious_redirect: " ++ x) "suspicious_redirect:" = true := by
  unfold strStarts
  rw [toList_append]
  have h : ("suspicious_redirect: ").toList
      = "suspicious_redirect:".toList ++ [' '] := by decide
  rw [h, List.append_assoc]
  exact startsChars_self_append _ _

lemma prepare_is_phish (r : DetectionResult) (o f : String)
    (ra : RedirectAnalysis) (c : Bool) :
    (prepare_final_result r o f ra c).is_phish = r.is_phish := by
  unfold prepare_final_result
  split <;> rfl

lemma prepare_reason (r : DetectionResult) (o f : String)
    (ra : RedirectAnalysis) (c : Bool) :
    (prepare_final_result r o f ra c).reason = r.reason := by
  unfold prepare_final_result
  split <;> rfl

lemma prepare_detected_brand (r : DetectionResult) (o f : String)
    (ra : RedirectAnalysis) (c : Bool) :
    (prepare_final_result r o f ra c).detected_brand = r.detected_brand := by
  unfold prepare_final_result
  split <;> rfl

lemma prepare_crp (r : DetectionResult) (o f : String)
    (ra : RedirectAnalysis) (c : Bool) :
    (prepare_final_result r o f ra c).crp_detected = some c := by
  unfold prepare_final_result
  split <;> rfl

lemma prepare_from_cache (r : DetectionResult) (o f : String)
    (ra : RedirectAnalysis) (c : Bool) :
    (prepare_final_result r o f ra c).from_cache = r.from_cache := by
  unfold prepare_final_result
  split <;> rfl

lemma prepare_similarity (r : DetectionResult) (o f : String)
    (ra : RedirectAnalysis) (c : Bool) :
    (prepare_final_result r o f ra c).similarity = r.similarity := by
  unfold prepare_final_result
  split <;> rfl

lemma capture_is_phish (env : Env) (db : Db) (url : String)
    (r : DetectionResult) (uid : Option Nat) (save : Bool) :
    ((capture_and_save_result env db url r uid save).1).is_phish = r.is_phish := by
  cases save <;> cases hp : env.persist <;>
    simp [capture_and_save_result, save_detection_result, hp]

lemma capture_reason (env : Env) (db : Db) (url : String)
    (r : DetectionResult) (uid : Option Nat) (save : Bool) :
    ((capture_and_save_result env db url r uid save).1).reason = r.reason := by
  cases save <;> cases hp : env.persist <;>
    simp [capture_and_save_result, save_detection_result, hp]

lemma capture_detected_brand (env : Env) (db : Db) (url : String)
    (r : DetectionResult) (uid : Option Nat) (save : Bool) :
    ((capture_and_save_result env db url r uid save).1).detected_brand
      = r.detected_brand := by
  cases save <;> cases hp : env.persist <;>
    simp [capture_and_save_result, save_detection_result, hp]

lemma capture_crp (env : Env) (db : Db) (url : String)
    (r : DetectionResult) (uid : Option Nat) (save : Bool) :
    ((capture_and_save_result env db url r uid save).1).crp_detected
      = r.crp_detected := by
  cases save <;> cases hp : env.persist <;>
    simp [capture_and_save_result, save_detection_result, hp]

lemma capture_from_cache (env : Env) (db : Db) (url : String)
    (r : DetectionResult) (uid : Option Nat) (save : Bool) :
    ((capture_and_save_result env db url r uid save).1).from_cache
      = r.from_cache := by
  cases save <;> cases hp : env.persist <;>
    simp [capture_and_save_result, save_detection_result, hp]

lemma capture_similarity (env : Env) (db : Db) (url : String)
    (r : DetectionResult) (uid : Option Nat) (save : Bool) :
    ((capture_and_save_result env db url r uid save).1).similarity
      = r.similarity := by
  cases save <;> cases hp : env.persist <;>
    simp [capture_and_save_result, save_detection_result, hp]

lemma capture_attempts (env : Env) (db : Db) (url : String)
    (r : DetectionResult) (uid : Option Nat) (save : Bool) :
    (capture_and_save_result env db url r uid save).2.2
      = if save then 1 else 0 := by
  cases save <;> cases hp : env.persist <;>
    simp [capture_and_save_result, save_detection_result, hp]

/-- C2: on a cache-missing run whose original URL is suspicious and which
actually redirected, the verdict is `is_phish=1` with a reason prefixed
`suspicious_redirect:` for every database (so even when the destination is
whitelisted or its favicon matches a registered brand), and the CRP classifier
is still invoked once for the record without affecting the verdict. -/
theorem C2_suspicious_redirect_precedence (env : Env) (db : Db)
    (url html favicon_b64 : String) (user_id : Option Nat) (save_to_db : Bool)
    (hsusp : (get_final_url env url).2.suspicious_original = true)
    (hred : (get_final_url env url).2.has_redirect = true)
    (hmiss : get_cached_result env db url none = none) :
    ∃ r, (phishing_detector_base64 env db url html favicon_b64 user_id
            save_to_db).outcome = .ok r
      ∧ r.is_phish = 1
      ∧ strStarts r.reason "suspicious_redirect:" = true
      ∧ (phishing_detector_base64 env db url html favicon_b64 user_id
            save_to_db).trace.crpCalls = 1 := by
  unfold phishing_detector_base64
  simp only [hsusp, hred, if_true, hmiss, Bool.and_self]
  refine ⟨_, rfl, ?_, ?_, trivial⟩
  · rw [capture_is_phish, prepare_is_phish]
  · rw [capture_reason, prepare_reason]
    exact strStarts_suspicious _

/-- Witness for C2: `http://x.duckdns.org/a` (dynamic-DNS pattern) redirecting
to `http://evil.com/` on an empty cache. -/
theorem C2_suspicious_redirect_precedence_witness :
    ((get_final_url envRedirect "http://x.duckdns.org/a").2.suspicious_original
        = true
      ∧ (get_final_url envRedirect "http://x.duckdns.org/a").2.has_redirect
        = true
      ∧ get_cached_result envRedirect dbEmpty "http://x.duckdns.org/a" none
        = none)
    ∧ ∃ r, (phishing_detector_base64 envRedirect dbEmpty
            "http://x.duckdns.org/a" "<h>" "" none true).outcome = .ok r
        ∧ r.is_phish = 1
        ∧ strStarts r.reason "suspicious_redirect:" = true
        ∧ (phishing_detector_base64 envRedirect dbEmpty
            "http://x.duckdns.org/a" "<h>" "" none true).trace.crpCalls = 1 :=
  ⟨⟨by decide, by decide, by decide⟩,
    C2_suspicious_redirect_precedence envRedirect dbEmpty
      "http://x.duckdns.org/a" "<h>" "" none true
      (by decide) (by decide) (by decide)⟩

/-- C3 (code bug): on the whitelist fast path of the imperative pipeline the
CRP classifier is never invoked — the verdict records `crp_detected=false`
although the classifier oracle would return `true`, and the run's CRP call
count is `0`, contradicting the claim (and the source's own comment) that the
classifier runs once even on fast paths. -/
theorem C3_whitelist_path_skips_crp :
    ((phishing_detector_base64 envText dbGoogle "https://google.com/x" "<h>"
        "" none true).outcome.toOption.map
          (fun r => (r.is_phish, r.reason, r.crp_detected)))
      = some (0, "whitelisted", some false)
    ∧ envText.crp.toOption = some true
    ∧ (phishing_detector_base64 envText dbGoogle "https://google.com/x" "<h>"
        "" none true).trace.crpCalls = 0 := by
  refine ⟨by decide, by decide, by decide⟩

/-- C8: resolving a brand name that already has a registry row is a no-op that
reports success — `save_brand_info` inserts nothing and leaves the registry
unchanged — and the follow-up registry read returns the existing record. -/
theorem C8_save_brand_idempotent (env : Env) (db : Db) (brand : String)
    (row : DbBrand)
    (hsave : env.saveBrandOk = true)
    (hlk : env.brandLookupOk = true)
    (hrow : db.brands.find? (fun b => b.brand_name == brand) = some row) :
    save_brand_info env db brand = (true, db)
      ∧ check_brand_exists env db brand
          = some { name := row.brand_name, domain := row.officialDomain,
                   aliases := row.brand_alias } := by
  constructor
  · unfold save_brand_info
    have hmem := List.mem_of_find?_eq_some hrow
    have hp := List.find?_some hrow
    have hex : (db.brands.find? (fun b =>
        b.brand_name == brand
          || (optStrTruthy env.searchDomain
                && b.officialDomain == some (env.searchDomain.getD "")))).isSome := by
      rw [List.find?_isSome]
      exact ⟨row, hmem, by rw [hp]; rfl⟩
    rcases Option.isSome_iff_exists.mp hex with ⟨y, hy⟩
    rw [hsave]
    simp only [if_true, hy]
  · unfold check_brand_exists
    rw [hlk]
    simp only [if_true, hrow]
    rfl

/-- Witness for C8 with the registered brand `PayPal`. -/
theorem C8_save_brand_idempotent_witness :
    (envBase.saveBrandOk = true ∧ envBase.brandLookupOk = true
      ∧ dbPayPal.brands.find? (fun b => b.brand_name == "PayPal")
          = some { brand_name := "PayPal", officialDomain := some "paypal.com",
                   brand_alias := [] })
    ∧ save_brand_info envBase dbPayPal "PayPal" = (true, dbPayPal)
    ∧ check_brand_exists envBase dbPayPal "PayPal"
        = some { name := "PayPal", domain := some "paypal.com", aliases := [] } :=
  ⟨⟨by decide, by decide, by decide⟩,
    C8_save_brand_idempotent envBase dbPayPal "PayPal"
      { brand_name := "PayPal", officialDomain := some "paypal.com",
        brand_alias := [] }
      (by decide) (by decide) (by decide)⟩

/-- C9: when a run is not pre-empted by the cache or the suspicious-redirect
state and the final URL's root domain matches a registry row (case-insensitive
equality against `official_domain`), the verdict is `is_phish=0` with reason
`whitelisted` and the registered brand, for every HTML content — so repeated
calls give the same verdict fields. -/
theorem C9_whitelist_fast_path (env : Env) (db : Db)
    (url html favicon_b64 : String) (user_id : Option Nat) (save_to_db : Bool)
    (row : DbBrand)
    (hbl : env.brandListOk = true)
    (hmiss : get_cached_result env db
        (if (get_final_url env url).2.has_redirect then url
         else (get_final_url env url).1) none = none)
    (hns : ((get_final_url env url).2.suspicious_original
        && (get_final_url env url).2.has_redirect) = false)
    (hfind : db.brands.find? (fun b =>
        optStrTruthy b.officialDomain
          && strLower (b.officialDomain.getD "")
              == extract_root_domain (get_final_url env url).1) = some row)
    (hname : row.brand_name ≠ "") :
    ∃ r, (phishing_detector_base64 env db url html favicon_b64 user_id
            save_to_db).outcome = .ok r
      ∧ r.is_phish = 0
      ∧ r.reason = "whitelisted"
      ∧ r.detected_brand = some row.brand_name := by
  unfold phishing_detector_base64
  simp only [hmiss, hns, check_whitelist, get_brand_list, hbl, if_true, hfind,
    Option.map_some', Bool.false_eq_true, if_false]
  rw [show optStrTruthy (some row.brand_name) = true from
    strTruthy_of_ne hname]
  simp only [if_true]
  refine ⟨_, rfl, ?_, ?_, ?_⟩
  · rw [capture_is_phish, prepare_is_phish]
  · rw [capture_reason, prepare_reason]
  · rw [capture_detected_brand, prepare_detected_brand]

/-- Witness for C9: `https://google.com/x` against a registry holding
`Google / google.com`. -/
theorem C9_whitelist_fast_path_witness :
    (envBase.brandListOk = true
      ∧ get_cached_result envBase dbGoogle
          (if (get_final_url envBase "https://google.com/x").2.has_redirect
           then "https://google.com/x"
           else (get_final_url envBase "https://google.com/x").1) none = none
      ∧ ((get_final_url envBase "https://google.com/x").2.suspicious_original
          && (get_final_url envBase "https://google.com/x").2.has_redirect)
            = false
      ∧ dbGoogle.brands.find? (fun b =>
            optStrTruthy b.officialDomain
              && strLower (b.officialDomain.getD "")
                  == extract_root_domain
                      (get_final_url envBase "https://google.com/x").1)
          = some { brand_name := "Google", officialDomain := some "google.com",
                   brand_alias := [] })
    ∧ ∃ r, (phishing_detector_base64 envBase dbGoogle "https://google.com/x"
            "<h>" "" none true).outcome = .ok r
        ∧ r.is_phish = 0
        ∧ r.reason = "whitelisted"
        ∧ r.detected_brand = some "Google" :=
  ⟨⟨by decide, by decide, by decide, by decide⟩,
    C9_whitelist_fast_path envBase dbGoogle "https://google.com/x" "<h>" ""
      none true
      { brand_name := "Google", officialDomain := some "google.com",
        brand_alias := [] }
      (by decide) (by decide) (by decide) (by decide) (by decide)⟩

/-- C7: whatever the outcomes of the fallible collaborators (redirect fetch,
CRP classifier, favicon lookup, text lookup, domain discovery, screenshot,
persistence), a cache-missing run of `phishing_detector_base64` never raises:
it reaches a terminal verdict and makes exactly one persistence attempt when
saving is requested (the whitelist registry read, which the claim does not
list, is assumed available). -/
theorem C7_collaborator_failures_degrade (env : Env) (db : Db)
    (url html favicon_b64 : String) (user_id : Option Nat) (save_to_db : Bool)
    (hbl : env.brandListOk = true)
    (hmiss : get_cached_result env db
        (if (get_final_url env url).2.has_redirect then url
         else (get_final_url env url).1) none = none) :
    (∃ r, (phishing_detector_base64 env db url html favicon_b64 user_id
        save_to_db).outcome = .ok r)
    ∧ (phishing_detector_base64 env db url html favicon_b64 user_id
        save_to_db).trace.persistCalls = (if save_to_db then 1 else 0) := by
  unfold phishing_detector_base64
  simp only [hmiss]
  cases hs : (get_final_url env url).2.suspicious_original
      && (get_final_url env url).2.has_redirect with
  | true =>
      simp only [hs, if_true]
      exact ⟨⟨_, rfl⟩, capture_attempts _ _ _ _ _ _⟩
  | false =>
      simp only [hs, Bool.false_eq_true, if_false, check_whitelist,
        get_brand_list, hbl, if_true]
      cases hw : db.brands.find? (fun b =>
          optStrTruthy b.officialDomain
            && strLower (b.officialDomain.getD "")
                == extract_root_domain (get_final_url env url).1) with
      | some w =>
          simp only [hw, Option.map_some', optStrTruthy]
          cases ht : strTruthy w.brand_name with
          | true =>
              simp only [ht, if_true]
              exact ⟨⟨_, rfl⟩, capture_attempts _ _ _ _ _ _⟩
          | false =>
              simp only [ht, Bool.false_eq_true, if_false]
              cases hf : (if (strTruthy favicon_b64
                  && strTruthy (strTrim favicon_b64)) = true then
                  detect_brand_from_favicon env clipThreshold else none) with
              | some hit =>
                  simp only [hf]
                  exact ⟨⟨_, rfl⟩, capture_attempts _ _ _ _ _ _⟩
              | none =>
                  simp only [hf]
                  cases hg : extract_brand_from_text_gemini env
                      (get_final_url env url).1 with
                  | some t =>
                      simp only [hg]
                      cases hc : check_brand_and_domain_match env db
                          (get_final_url env url).1 t.name with
                      | some result =>
                          simp only [hc]
                          exact ⟨⟨_, rfl⟩, capture_attempts _ _ _ _ _ _⟩
                      | none =>
                          simp only [hc]
                          exact ⟨⟨_, rfl⟩, capture_attempts _ _ _ _ _ _⟩
                  | none =>
                      simp only [hg]
                      exact ⟨⟨_, rfl⟩, capture_attempts _ _ _ _ _ _⟩
      | none =>
          simp only [hw, Option.map_none', optStrTruthy]
          simp only [Bool.false_eq_true, if_false]
          cases hf : (if (strTruthy favicon_b64
              && strTruthy (strTrim favicon_b64)) = true then
              detect_brand_from_favicon env clipThreshold else none) with
          | some hit =>
              simp only [hf]
              exact ⟨⟨_, rfl⟩, capture_attempts _ _ _ _ _ _⟩
          | none =>
              simp only [hf]
              cases hg : extract_brand_from_text_gemini env
                  (get_final_url env url).1 with
              | some t =>
                  simp only [hg]
                  cases hc : check_brand_and_domain_match env db
                      (get_final_url env url).1 t.name with
                  | some result =>
                      simp only [hc]
                      exact ⟨⟨_, rfl⟩, capture_attempts _ _ _ _ _ _⟩
                  | none =>
                      simp only [hc]
                      exact ⟨⟨_, rfl⟩, capture_attempts _ _ _ _ _ _⟩
              | none =>
                  simp only [hg]
                  exact ⟨⟨_, rfl⟩, capture_attempts _ _ _ _ _ _⟩

/-- Witness for C7: every listed collaborator fails at once and the run still
terminates with the neutral defaults (no redirect, `crp=false`, no brand, no
screenshot, no detection id) after one persistence attempt. -/
theorem C7_collaborator_failures_degrade_witness :
    (envAllFail.brandListOk = true
      ∧ get_cached_result envAllFail dbEmpty
          (if (get_final_url envAllFail "https://site.com/x").2.has_redirect
           then "https://site.com/x"
           else (get_final_url envAllFail "https://site.com/x").1) none = none)
    ∧ ((∃ r, (phishing_detector_base64 envAllFail dbEmpty "https://site.com/x"
          "<h>" "" none true).outcome = .ok r)
        ∧ (phishing_detector_base64 envAllFail dbEmpty "https://site.com/x"
            "<h>" "" none true).trace.persistCalls = (if true then 1 else 0))
    ∧ ((phishing_detector_base64 envAllFail dbEmpty "https://site.com/x" "<h>"
          "" none true).outcome.toOption.map (fun r =>
            (r.is_phish, r.reason, r.crp_detected, r.detection_id,
              (r.redirect_analysis.map (fun ra => ra.has_redirect)),
              r.detected_brand)))
        = some (0, "no_brand_detected", some false, none, some false, none) :=
  ⟨⟨by decide, by decide⟩,
    C7_collaborator_failures_degrade envAllFail dbEmpty "https://site.com/x"
      "<h>" "" none true (by decide) (by decide),
    by rfl⟩

lemma strEnds_append (m suffix : String) :
    strEnds (m ++ suffix) suffix = true := by
  unfold strEnds
  rw [toList_append, List.reverse_append]
  exact startsChars_self_append _ _

lemma check_brand_some_shape {env : Env} {db : Db} {url b : String}
    {r : DetectionResult}
    (h : check_brand_and_domain_match env db url b = some r) :
    r = { is_phish := 0, reason := "brand_domain_match",
          detected_brand := some b, similarity := none }
      ∨ r = { is_phish := 1, reason := "brand_domain_mismatch",
              detected_brand := some b, similarity := none } := by
  unfold check_brand_and_domain_match at h
  rcases hbe : check_brand_exists env db b with _ | info
  · rw [hbe] at h; cases h
  · rw [hbe] at h
    have h2 : (match info.domain with
        | none => none
        | some d =>
          if domain_match url d = true then
            some { is_phish := 0, reason := "brand_domain_match",
                   detected_brand := some b, similarity := none }
          else
            some ({ is_phish := 1, reason := "brand_domain_mismatch",
                    detected_brand := some b, similarity := none }
              : DetectionResult)) = some r := h
    rcases hd : info.domain with _ | d
    · rw [hd] at h2; cases h2
    · rw [hd] at h2
      have h3 : (if domain_match url d = true then
            some { is_phish := 0, reason := "brand_domain_match",
                   detected_brand := some b, similarity := none }
          else
            some ({ is_phish := 1, reason := "brand_domain_mismatch",
                    detected_brand := some b, similarity := none }
              : DetectionResult)) = some r := h2
      by_cases hm : domain_match url d = true
      · left
        rw [if_pos hm] at h3
        exact (Option.some.injEq _ _ ▸ h3).symm
      · right
        rw [if_neg hm] at h3
        exact (Option.some.injEq _ _ ▸ h3).symm

lemma handle_new_brand_shape (env : Env) (db : Db) (url b : String)
    (dom : Option String) (sim : Option ℚ) (m : String) :
    ∃ suffix ∈ ["_new_brand_detected_and_domain_match",
        "_new_brand_detected_but_domain_mismatch",
        "_new_brand_detected_and_saved", "_new_brand_detected"],
      (handle_new_brand_detection env db url b dom sim m).1.reason
          = m ++ suffix
        ∧ (handle_new_brand_detection env db url b dom sim m).1.original_url
          = none
        ∧ (handle_new_brand_detection env db url b dom sim m).1.final_url
          = none
        ∧ (handle_new_brand_detection env db url b dom sim m).1.from_cache
          = false := by
  unfold handle_new_brand_detection
  dsimp only
  split
  · split
    · exact ⟨"_new_brand_detected_and_domain_match", by simp, rfl, rfl, rfl, rfl⟩
    · exact ⟨"_new_brand_detected_but_domain_mismatch", by simp, rfl, rfl, rfl,
        rfl⟩
  · split
    · exact ⟨"_new_brand_detected_and_saved", by simp, rfl, rfl, rfl, rfl⟩
    · exact ⟨"_new_brand_detected", by simp, rfl, rfl, rfl, rfl⟩

/-- C4 counterexample: a registered text brand (`PayPal`, found in the
registry) handled by the imperative pipeline yields reason
`brand_domain_mismatch` — not `text_brand_domain_match` /
`text_brand_domain_mismatch` and outside the claimed closed set. -/
theorem C4_counterexample_unprefixed_reason :
    ((phishing_detector_base64 envText dbPayPal "https://bar.com/x" "<h>" ""
        none true).outcome.toOption.map (fun r => (r.is_phish, r.reason)))
      = some (1, "brand_domain_mismatch")
    ∧ (check_brand_exists envText dbPayPal "PayPal").isSome = true
    ∧ claimedFusionReason "brand_domain_mismatch" = false :=
  ⟨by rfl, by rfl, by decide⟩

/-- C4 amended: on runs reaching the fusion stage (cache miss, no suspicious
redirect, no whitelist hit) every reason is `no_brand_detected` or in the
closed set amended with the unprefixed `brand_domain_match` /
`brand_domain_mismatch` that the imperative registered-text-brand path emits;
and on that path the verdict is `is_phish=0` exactly when the registered
official domain matches the resource domain. -/
theorem C4_fusion_reasons_amended :
    (∀ env db url html favicon_b64 user_id save_to_db,
      env.brandListOk = true →
      get_cached_result env db
          (if (get_final_url env url).2.has_redirect then url
           else (get_final_url env url).1) none = none →
      ((get_final_url env url).2.suspicious_original
          && (get_final_url env url).2.has_redirect) = false →
      db.brands.find? (fun b =>
          optStrTruthy b.officialDomain
            && strLower (b.officialDomain.getD "")
                == extract_root_domain (get_final_url env url).1) = none →
      ∃ r, (phishing_detector_base64 env db url html favicon_b64 user_id
              save_to_db).outcome = .ok r
        ∧ (amendedFusionReason r.reason
            || (r.reason == "no_brand_detected")) = true)
    ∧ (∀ env db url b info d,
      check_brand_exists env db b = some info →
      info.domain = some d →
      ∃ r, check_brand_and_domain_match env db url b = some r
        ∧ (r.is_phish = 0 ↔ domain_match url d = true)
        ∧ (r.reason = "brand_domain_match"
            ∨ r.reason = "brand_domain_mismatch")) := by
  constructor
  · intro env db url html favicon_b64 user_id save_to_db hbl hmiss hns hw
    unfold phishing_detector_base64
    simp only [hmiss, hns, Bool.false_eq_true, if_false, check_whitelist,
      get_brand_list, hbl, if_true, hw, Option.map_none']
    simp only [optStrTruthy, Bool.false_eq_true, if_false]
    cases hf : (if (strTruthy favicon_b64
        && strTruthy (strTrim favicon_b64)) = true then
        detect_brand_from_favicon env clipThreshold else none) with
    | some hit =>
        simp only [hf]
        refine ⟨_, rfl, ?_⟩
        rw [capture_reason, prepare_reason]
        by_cases hdm : domain_match (get_final_url env url).1 hit.domain = true
        · rw [if_pos hdm]; dsimp only; decide
        · rw [if_neg hdm]; dsimp only; decide
    | none =>
        simp only [hf]
        cases hg : extract_brand_from_text_gemini env
            (get_final_url env url).1 with
        | some t =>
            cases hc : check_brand_and_domain_match env db
                (get_final_url env url).1 t.name with
            | some result =>
                simp only [hg, hc]
                refine ⟨_, rfl, ?_⟩
                rw [capture_reason, prepare_reason]
                rcases check_brand_some_shape hc with h1 | h1 <;>
                  rw [h1] <;> dsimp only <;> decide
            | none =>
                simp only [hg, hc]
                refine ⟨_, rfl, ?_⟩
                rw [capture_reason, prepare_reason]
                rcases handle_new_brand_shape env db (get_final_url env url).1
                    t.name (some t.domain) none "text" with
                  ⟨suffix, hsuf, hreason, _, _, _⟩
                rw [hreason]
                fin_cases hsuf <;> decide
        | none =>
            simp only [hg]
            refine ⟨_, rfl, ?_⟩
            rw [capture_reason, prepare_reason]
            dsimp only
            decide
  · intro env db url b info d hbe hd
    unfold check_brand_and_domain_match
    rw [hbe]
    by_cases hdm : domain_match url d = true
    · use ({ is_phish := 0, reason := "brand_domain_match", detected_brand := some b, similarity := none } : DetectionResult)
      refine ⟨?_, ⟨fun _ => hdm, fun _ => rfl⟩, Or.inl rfl⟩
      show (match info.domain with
          | none => none
          | some d =>
            if domain_match url d = true then
              some { is_phish := 0, reason := "brand_domain_match",
                     detected_brand := some b, similarity := none }
            else
              some ({ is_phish := 1, reason := "brand_domain_mismatch",
                      detected_brand := some b, similarity := none }
                : DetectionResult))
        = some ({ is_phish := 0, reason := "brand_domain_match",
                  detected_brand := some b, similarity := none }
            : DetectionResult)
      rw [hd]
      show (if domain_match url d = true then
            some { is_phish := 0, reason := "brand_domain_match",
                   detected_brand := some b, similarity := none }
          else
            some ({ is_phish := 1, reason := "brand_domain_mismatch",
                    detected_brand := some b, similarity := none }
              : DetectionResult))
        = some ({ is_phish := 0, reason := "brand_domain_match",
                  detected_brand := some b, similarity := none }
            : DetectionResult)
      exact if_pos hdm
    · use ({ is_phish := 1, reason := "brand_domain_mismatch", detected_brand := some b, similarity := none } : DetectionResult)
      refine ⟨?_, ⟨fun h0 => absurd h0 Nat.one_ne_zero, fun hdm2 => absurd hdm2 hdm⟩,
        Or.inr rfl⟩
      show (match info.domain with
          | none => none
          | some d =>
            if domain_match url d = true then
              some { is_phish := 0, reason := "brand_domain_match",
                     detected_brand := some b, similarity := none }
            else
              some ({ is_phish := 1, reason := "brand_domain_mismatch",
                      detected_brand := some b, similarity := none }
                : DetectionResult))
        = some ({ is_phish := 1, reason := "brand_domain_mismatch",
                  detected_brand := some b, similarity := none }
            : DetectionResult)
      rw [hd]
      show (if domain_match url d = true then
            some { is_phish := 0, reason := "brand_domain_match",
                   detected_brand := some b, similarity := none }
          else
            some ({ is_phish := 1, reason := "brand_domain_mismatch",
                    detected_brand := some b, similarity := none }
              : DetectionResult))
        = some ({ is_phish := 1, reason := "brand_domain_mismatch",
                  detected_brand := some b, similarity := none }
            : DetectionResult)
      exact if_neg hdm

/-- Witness for C4's amended statement: a cache-missing, non-suspicious,
non-whitelisted run, and the registered-text-brand comparison for `PayPal`. -/
theorem C4_fusion_reasons_amended_witness :
    ((envText.brandListOk = true
        ∧ get_cached_result envText dbEmpty
            (if (get_final_url envText "https://bar.com/x").2.has_redirect
             then "https://bar.com/x"
             else (get_final_url envText "https://bar.com/x").1) none = none
        ∧ ((get_final_url envText "https://bar.com/x").2.suspicious_original
            && (get_final_url envText "https://bar.com/x").2.has_redirect)
              = false
        ∧ dbEmpty.brands.find? (fun b =>
              optStrTruthy b.officialDomain
                && strLower (b.officialDomain.getD "")
                    == extract_root_domain
                        (get_final_url envText "https://bar.com/x").1) = none)
      ∧ ∃ r, (phishing_detector_base64 envText dbEmpty "https://bar.com/x"
              "<h>" "" none true).outcome = .ok r
          ∧ (amendedFusionReason r.reason
              || (r.reason == "no_brand_detected")) = true)
    ∧ ((check_brand_exists envText dbPayPal "PayPal"
          = some { name := "PayPal", domain := some "paypal.com",
                   aliases := [] })
      ∧ ∃ r, check_brand_and_domain_match envText dbPayPal
            "https://bar.com/x" "PayPal" = some r
          ∧ (r.is_phish = 0
              ↔ domain_match "https://bar.com/x" "paypal.com" = true)
          ∧ (r.reason = "brand_domain_match"
              ∨ r.reason = "brand_domain_mismatch")) :=
  ⟨⟨⟨by decide, by decide, by decide, by decide⟩,
      C4_fusion_reasons_amended.1 envText dbEmpty "https://bar.com/x" "<h>" ""
        none true (by decide) (by decide) (by decide) (by decide)⟩,
    ⟨by decide,
      C4_fusion_reasons_amended.2 envText dbPayPal "https://bar.com/x"
        "PayPal"
        { name := "PayPal", domain := some "paypal.com", aliases := [] }
        "paypal.com" (by decide) (by decide)⟩⟩

lemma check_brand_eval {env : Env} {db : Db} {url b d : String}
    {info : BrandInfo}
    (hbe : check_brand_exists env db b = some info)
    (hd : info.domain = some d) :
    check_brand_and_domain_match env db url b
      = some ((if domain_match url d = true then
          { is_phish := 0, reason := "brand_domain_match",
            detected_brand := some b, similarity := none }
        else
          { is_phish := 1, reason := "brand_domain_mismatch",
            detected_brand := some b, similarity := none }) : DetectionResult) := by
  unfold check_brand_and_domain_match
  rw [hbe]
  show (match info.domain with
      | none => none
      | some d =>
        if domain_match url d = true then
          some ({ is_phish := 0, reason := "brand_domain_match",
                  detected_brand := some b, similarity := none }
            : DetectionResult)
        else
          some ({ is_phish := 1, reason := "brand_domain_mismatch",
                  detected_brand := some b, similarity := none }
            : DetectionResult)) = _
  rw [hd]
  show (if domain_match url d = true then
        some ({ is_phish := 0, reason := "brand_domain_match",
                detected_brand := some b, similarity := none }
          : DetectionResult)
      else
        some ({ is_phish := 1, reason := "brand_domain_mismatch",
                detected_brand := some b, similarity := none }
          : DetectionResult)) = _
  rw [apply_ite Option.some]

lemma check_brand_none {env : Env} {db : Db} {url b : String}
    (hbe : check_brand_exists env db b = none) :
    check_brand_and_domain_match env db url b = none := by
  unfold check_brand_and_domain_match
  rw [hbe]

lemma check_brand_domain_ne_none {env : Env} {db : Db} {b : String}
    {info : BrandInfo}
    (hdoms : ∀ row ∈ db.brands, row.officialDomain ≠ none)
    (hbe : check_brand_exists env db b = some info) :
    info.domain ≠ none := by
  unfold check_brand_exists at hbe
  by_cases hlk : env.brandLookupOk = true
  · rw [if_pos hlk] at hbe
    cases hfind : db.brands.find? (fun x => x.brand_name == b) with
    | none => rw [hfind] at hbe; cases hbe
    | some row =>
        rw [hfind] at hbe
        have hrow := List.mem_of_find?_eq_some hfind
        simp only [Option.map_some'] at hbe
        rw [← Option.some.inj hbe]
        exact hdoms row hrow
  · rw [if_neg hlk] at hbe
    cases hbe

/-- C1 counterexample: on the same input (no redirect, no favicon, text brand
`PayPal` registered with `paypal.com`, URL `https://bar.com/x`), the imperative
form answers reason `brand_domain_mismatch` while the chain form answers
`text_brand_domain_mismatch`: the verdict fields are not bit-identical. -/
theorem C1_counterexample_forms_diverge :
    ((phishing_detector_base64 envText dbPayPal "https://bar.com/x" "<h>" ""
        none true).outcome.toOption.map
          (fun r => (r.is_phish, r.reason, r.crp_detected)))
      = some (1, "brand_domain_mismatch", some true)
    ∧ ((langchain_detect envText dbPayPal "https://bar.com/x" "<h>" "" none
        (get_final_url envText "https://bar.com/x").2
        (some "https://bar.com/x")).outcome.toOption.map
          (fun r => (r.is_phish, r.reason, r.crp_detected)))
      = some (1, "text_brand_domain_mismatch", some true)
    ∧ "brand_domain_mismatch" ≠ "text_brand_domain_mismatch" :=
  ⟨by rfl, by rfl, by decide⟩

/-- C1 amended: restricted to runs that are neither cache hits nor suspicious
redirects (states the chain form does not implement), and given a registry with
non-empty brand names and non-NULL official domains, the two execution forms
agree on `is_phish` and `detected_brand` for every input and oracle outcome;
they still differ in the reason string on the registered-text-brand path
(`brand_domain_*` vs `text_brand_domain_*`) and in `crp_detected` on the
whitelist path (the imperative form records `false` without invoking the
classifier). -/
theorem C1_forms_agree_amended (env : Env) (db : Db)
    (url html favicon_b64 : String) (user_id : Option Nat) (save_to_db : Bool)
    (hbl : env.brandListOk = true)
    (hmiss : get_cached_result env db
        (if (get_final_url env url).2.has_redirect then url
         else (get_final_url env url).1) none = none)
    (hns : ((get_final_url env url).2.suspicious_original
        && (get_final_url env url).2.has_redirect) = false)
    (hnames : ∀ row ∈ db.brands, row.brand_name ≠ "")
    (hdoms : ∀ row ∈ db.brands, row.officialDomain ≠ none) :
    ∃ r1 r2,
      (phishing_detector_base64 env db url html favicon_b64 user_id
          save_to_db).outcome = .ok r1
      ∧ (langchain_detect env db (get_final_url env url).1 html favicon_b64
          user_id (get_final_url env url).2 (some url)).outcome = .ok r2
      ∧ r1.is_phish = r2.is_phish
      ∧ r1.detected_brand = r2.detected_brand := by
  unfold phishing_detector_base64 langchain_detect chain_whitelist_result
  simp only [hmiss, hns, Bool.false_eq_true, if_false, check_whitelist,
    get_brand_list, hbl, if_true]
  cases hw : db.brands.find? (fun b =>
      optStrTruthy b.officialDomain
        && strLower (b.officialDomain.getD "")
            == extract_root_domain (get_final_url env url).1) with
  | some w =>
      simp only [hw, Option.map_some']
      have hbrand : strTruthy w.brand_name = true :=
        strTruthy_of_ne (hnames w (List.mem_of_find?_eq_some hw))
      simp only [optStrTruthy, hbrand, if_true]
      refine ⟨_, _, rfl, rfl, ?_, ?_⟩
      · simp only [capture_is_phish, prepare_is_phish]
        split <;> rfl
      · simp only [capture_detected_brand, prepare_detected_brand]
        split <;> rfl
  | none =>
      simp only [hw, Option.map_none']
      simp only [optStrTruthy, Bool.false_eq_true, if_false]
      cases hf : (if (strTruthy favicon_b64
          && strTruthy (strTrim favicon_b64)) = true then
          detect_brand_from_favicon env clipThreshold else none) with
      | some hit =>
          simp only [hf]
          refine ⟨_, _, rfl, rfl, ?_, ?_⟩
          · simp only [capture_is_phish, prepare_is_phish]
            by_cases hdm : domain_match (get_final_url env url).1 hit.domain
                = true
            · simp only [hdm, if_true]
              split <;> rfl
            · simp only [hdm, Bool.false_eq_true, if_false]
              split <;> rfl
          · simp only [capture_detected_brand, prepare_detected_brand]
            by_cases hdm : domain_match (get_final_url env url).1 hit.domain
                = true
            · simp only [hdm, if_true]
              split <;> rfl
            · simp only [hdm, Bool.false_eq_true, if_false]
              split <;> rfl
      | none =>
          simp only [hf]
          cases hg : extract_brand_from_text_gemini env
              (get_final_url env url).1 with
          | none =>
              simp only [hg]
              refine ⟨_, _, rfl, rfl, ?_, ?_⟩
              · simp only [capture_is_phish, prepare_is_phish]
                split <;> rfl
              · simp only [capture_detected_brand, prepare_detected_brand]
                split <;> rfl
          | some t =>
              simp only [hg]
              cases hbe : check_brand_exists env db t.name with
              | some info =>
                  cases hd : info.domain with
                  | none =>
                      exact absurd hd (check_brand_domain_ne_none hdoms hbe)
                  | some d =>
                      simp only [check_brand_eval hbe hd, hbe, hd]
                      refine ⟨_, _, rfl, rfl, ?_, ?_⟩
                      · simp only [capture_is_phish, prepare_is_phish]
                        by_cases hdm : domain_match (get_final_url env url).1 d
                            = true
                        · simp only [hdm, if_true]
                          split <;> rfl
                        · simp only [hdm, Bool.false_eq_true, if_false]
                          split <;> rfl
                      · simp only [capture_detected_brand,
                          prepare_detected_brand]
                        by_cases hdm : domain_match (get_final_url env url).1 d
                            = true
                        · simp only [hdm, if_true]
                          split <;> rfl
                        · simp only [hdm, Bool.false_eq_true, if_false]
                          split <;> rfl
              | none =>
                  simp only [check_brand_none hbe, hbe]
                  refine ⟨_, _, rfl, rfl, ?_, ?_⟩
                  · simp only [capture_is_phish, prepare_is_phish]
                    split <;> rfl
                  · simp only [capture_detected_brand, prepare_detected_brand]
                    split <;> rfl

lemma get_final_url_redirect_ne (env : Env) (url : String)
    (h : (get_final_url env url).2.has_redirect = true) :
    (get_final_url env url).1 ≠ url := by
  unfold get_final_url at h ⊢
  cases hf : env.fetch with
  | error e =>
      rw [hf] at h
      simp at h
  | ok p =>
      rcases p with ⟨f, hist⟩
      rw [hf] at h
      by_cases hne : f ≠ url
      · simp [hne]
      · push_neg at hne
        simp [hne] at h

lemma prepare_redirect_analysis (r : DetectionResult) (o f : String)
    (ra : RedirectAnalysis) (c : Bool) :
    (prepare_final_result r o f ra c).redirect_analysis = some ra := by
  unfold prepare_final_result
  split <;> rfl

lemma prepare_original_url (r : DetectionResult) (o f : String)
    (ra : RedirectAnalysis) (c : Bool) :
    (prepare_final_result r o f ra c).original_url
      = if o ≠ f then some o else r.original_url := by
  unfold prepare_final_result
  by_cases h : o ≠ f <;> simp [h]

lemma prepare_final_url (r : DetectionResult) (o f : String)
    (ra : RedirectAnalysis) (c : Bool) :
    (prepare_final_result r o f ra c).final_url
      = if o ≠ f then some f else r.final_url := by
  unfold prepare_final_result
  by_cases h : o ≠ f <;> simp [h]

lemma capture_save_key (env : Env) (db : Db) (url : String)
    (r : DetectionResult) (uid : Option Nat) (pid : Nat)
    (hp : env.persist = .ok pid) :
    ∃ row, (capture_and_save_result env db url r uid true).2.1.detections
        = row :: db.detections
      ∧ row.url = (if ((r.redirect_analysis.map
            (fun ra => ra.has_redirect)).getD false) = true
          then r.original_url.getD url else r.final_url.getD url)
      ∧ row.user_id = uid := by
  unfold capture_and_save_result save_detection_result
  simp only [hp]
  exact ⟨_, rfl, rfl, rfl⟩

lemma prepared_save_key (env : Env) (db : Db) (url : String)
    (core : DetectionResult) (uid : Option Nat) (pid : Nat) (c : Bool)
    (hp : env.persist = .ok pid)
    (hou : core.original_url = none)
    (hfu : core.final_url = none) :
    ∃ row, (capture_and_save_result env db (get_final_url env url).1
        (prepare_final_result core url (get_final_url env url).1
          (get_final_url env url).2 c) uid true).2.1.detections
        = row :: db.detections
      ∧ row.url = (if (get_final_url env url).2.has_redirect then url
          else (get_final_url env url).1)
      ∧ row.user_id = uid := by
  obtain ⟨row, hrow, hurl, huid⟩ :=
    capture_save_key env db (get_final_url env url).1
      (prepare_final_result core url (get_final_url env url).1
        (get_final_url env url).2 c) uid pid hp
  refine ⟨row, hrow, ?_, huid⟩
  rw [hurl, prepare_redirect_analysis, prepare_original_url,
    prepare_final_url]
  by_cases hr : (get_final_url env url).2.has_redirect = true
  · have hne : url ≠ (get_final_url env url).1 :=
      fun hh => get_final_url_redirect_ne env url hr hh.symm
    simp [hr, hne]
  · have hr2 : (get_final_url env url).2.has_redirect = false := by
      cases hh : (get_final_url env url).2.has_redirect
      · rfl
      · exact absurd hh hr
    by_cases hne : url ≠ (get_final_url env url).1
    · simp [hr2, hne]
    · simp [hr2, hne, hfu]

lemma anon_lookup_none (env : Env) (db : Db) (u : String)
    (h : ∀ row ∈ db.detections, row.user_id ≠ none) :
    get_cached_result env db u none = none := by
  unfold get_cached_result
  by_cases hc : env.cacheOk = true
  · rw [if_pos hc]
    cases hf : db.detections.find? (fun row =>
        row.url == u && row.user_id == (none : Option Nat)
          && decide (env.now - env.ttl < row.created_at)) with
    | none => rfl
    | some row =>
        exfalso
        have hp := List.find?_some hf
        simp only [Bool.and_eq_true, beq_iff_eq] at hp
        exact h row (List.mem_of_find?_eq_some hf) hp.1.2
  · rw [if_neg hc]

lemma cached_scope (env : Env) (db : Db) (u : String) (uid : Option Nat)
    (r : DetectionResult)
    (h : get_cached_result env db u uid = some r) :
    ∃ row ∈ db.detections, row.url = u ∧ row.user_id = uid := by
  unfold get_cached_result at h
  by_cases hc : env.cacheOk = true
  · rw [if_pos hc] at h
    cases hf : db.detections.find? (fun row =>
        row.url == u && row.user_id == uid
          && decide (env.now - env.ttl < row.created_at)) with
    | none => rw [hf] at h; cases h
    | some row =>
        have hp := List.find?_some hf
        simp only [Bool.and_eq_true, beq_iff_eq] at hp
        exact ⟨row, List.mem_of_find?_eq_some hf, hp.1.1, hp.1.2⟩
  · rw [if_neg hc] at h
    cases h

lemma save_brand_info_detections (env : Env) (db : Db) (b : String) :
    ((save_brand_info env db b).2).detections = db.detections := by
  unfold save_brand_info
  by_cases hs : env.saveBrandOk = true
  · rw [if_pos hs]
    dsimp only
    split <;> rfl
  · rw [if_neg hs]

lemma handle_new_brand_detections (env : Env) (db : Db) (url b : String)
    (dom : Option String) (sim : Option ℚ) (m : String) :
    ((handle_new_brand_detection env db url b dom sim m).2).detections
      = db.detections := by
  unfold handle_new_brand_detection save_new_brand_to_database
  dsimp only
  split
  · split
    · exact save_brand_info_detections env db b
    · exact save_brand_info_detections env db b
  · exact save_brand_info_detections env db b

/-- C6 counterexample: user 7 analyses `http://a.com/r`, which redirects to
`http://b.com/`; the verdict is stored under the original URL in user 7's
scope, yet an identical second request by user 7 misses the cache, because the
pipeline's lookup always queries the anonymous scope. -/
theorem C6_counterexample_scoped_lookup_miss :
    (((phishing_detector_base64 envToB dbEmpty "http://a.com/r" "<h>" ""
        (some 7) true).db).detections.map (fun row => (row.url, row.user_id)))
      = [("http://a.com/r", some 7)]
    ∧ (get_cached_result envToB
        (phishing_detector_base64 envToB dbEmpty "http://a.com/r" "<h>" ""
          (some 7) true).db "http://a.com/r" (some 7)).isSome = true
    ∧ ((phishing_detector_base64 envToB
        (phishing_detector_base64 envToB dbEmpty "http://a.com/r" "<h>" ""
          (some 7) true).db "http://a.com/r" "<h>" "" (some 7)
          true).outcome.toOption.map (fun r => r.from_cache)) = some false :=
  ⟨by rfl, by rfl, by rfl⟩

/-- C6 amended: the cache-key URL is the original URL when a redirect occurred
and the final URL otherwise, on both the lookup and the store side, and the
stored row carries the acting subject's scope; but the pipeline's lookup
always queries the anonymous scope, so a run against a store holding only
user-scoped rows never hits, while the service-level lookup itself is
scope-isolated; the A-redirects-to-B hit/miss behaviour holds in the
anonymous scope. -/
theorem C6_cache_key_and_scope_amended :
    (∀ env db url html favicon_b64 user_id pid,
      env.brandListOk = true →
      get_cached_result env db
          (if (get_final_url env url).2.has_redirect then url
           else (get_final_url env url).1) none = none →
      env.persist = .ok pid →
      ∃ row, ((phishing_detector_base64 env db url html favicon_b64 user_id
            true).db).detections = row :: db.detections
        ∧ row.url = (if (get_final_url env url).2.has_redirect then url
            else (get_final_url env url).1)
        ∧ row.user_id = user_id)
    ∧ (∀ env db url html favicon_b64 user_id save_to_db,
      env.brandListOk = true →
      (∀ row ∈ db.detections, row.user_id ≠ none) →
      ∃ r, (phishing_detector_base64 env db url html favicon_b64 user_id
          save_to_db).outcome = .ok r ∧ r.from_cache = false)
    ∧ (∀ env db u uid r,
      get_cached_result env db u uid = some r →
      ∃ row ∈ db.detections, row.url = u ∧ row.user_id = uid)
    ∧ ((((phishing_detector_base64 envToB dbEmpty "http://a.com/r" "<h>" ""
          none true).db).detections.map (fun row => (row.url, row.user_id)))
        = [("http://a.com/r", none)]
      ∧ ((phishing_detector_base64 envToB
          (phishing_detector_base64 envToB dbEmpty "http://a.com/r" "<h>" ""
            none true).db "http://a.com/r" "<h>" "" none
            true).outcome.toOption.map (fun r => r.from_cache)) = some true
      ∧ ((phishing_detector_base64 envAtB
          (phishing_detector_base64 envToB dbEmpty "http://a.com/r" "<h>" ""
            none true).db "http://b.com/" "<h>" "" none
            true).outcome.toOption.map (fun r => r.from_cache))
          = some false) := by
  refine ⟨?_, ?_, ?_, by rfl, by rfl, by rfl⟩
  · intro env db url html favicon_b64 user_id pid hbl hmiss hp
    unfold phishing_detector_base64
    simp only [hmiss]
    cases hs : (get_final_url env url).2.suspicious_original
        && (get_final_url env url).2.has_redirect with
    | true =>
        simp only [hs, if_true]
        exact prepared_save_key env db url _ user_id pid _ hp rfl rfl
    | false =>
        simp only [hs, Bool.false_eq_true, if_false, check_whitelist,
          get_brand_list, hbl, if_true]
        cases hw : db.brands.find? (fun b =>
            optStrTruthy b.officialDomain
              && strLower (b.officialDomain.getD "")
                  == extract_root_domain (get_final_url env url).1) with
        | some w =>
            simp only [hw, Option.map_some', optStrTruthy]
            cases ht : strTruthy w.brand_name with
            | true =>
                simp only [ht, if_true]
                exact prepared_save_key env db url _ user_id pid _ hp rfl rfl
            | false =>
                simp only [ht, Bool.false_eq_true, if_false]
                cases hf : (if (strTruthy favicon_b64
                    && strTruthy (strTrim favicon_b64)) = true then
                    detect_brand_from_favicon env clipThreshold else none) with
                | some hit =>
                    simp only [hf]
                    exact prepared_save_key env db url _ user_id pid _ hp
                      (by split <;> rfl) (by split <;> rfl)
                | none =>
                    simp only [hf]
                    cases hg : extract_brand_from_text_gemini env
                        (get_final_url env url).1 with
                    | some t =>
                        cases hc : check_brand_and_domain_match env db
                            (get_final_url env url).1 t.name with
                        | some result =>
                            simp only [hg, hc]
                            rcases check_brand_some_shape hc with h1 | h1 <;>
                              rw [h1] <;>
                              exact prepared_save_key env db url _ user_id pid
                                _ hp rfl rfl
                        | none =>
                            simp only [hg, hc]
                            obtain ⟨suffix, hsuf, hreason, hou, hfu, hfc⟩ :=
                              handle_new_brand_shape env db
                                (get_final_url env url).1 t.name
                                (some t.domain) none "text"
                            obtain ⟨row, hrow, hurl, huid⟩ :=
                              prepared_save_key env
                                (handle_new_brand_detection env db
                                  (get_final_url env url).1 t.name
                                  (some t.domain) none "text").2 url
                                (handle_new_brand_detection env db
                                  (get_final_url env url).1 t.name
                                  (some t.domain) none "text").1
                                user_id pid
                                (match env.crp with
                                  | .ok b => b | .error _ => false)
                                hp hou hfu
                            refine ⟨row, ?_, hurl, huid⟩
                            rw [hrow, handle_new_brand_detections]
                    | none =>
                        simp only [hg]
                        exact prepared_save_key env db url _ user_id pid _ hp
                          rfl rfl
        | none =>
            simp only [hw, Option.map_none', optStrTruthy]
            simp only [Bool.false_eq_true, if_false]
            cases hf : (if (strTruthy favicon_b64
                && strTruthy (strTrim favicon_b64)) = true then
                detect_brand_from_favicon env clipThreshold else none) with
            | some hit =>
                simp only [hf]
                exact prepared_save_key env db url _ user_id pid _ hp
                  (by split <;> rfl) (by split <;> rfl)
            | none =>
                simp only [hf]
                cases hg : extract_brand_from_text_gemini env
                    (get_final_url env url).1 with
                | some t =>
                    cases hc : check_brand_and_domain_match env db
                        (get_final_url env url).1 t.name with
                    | some result =>
                        simp only [hg, hc]
                        rcases check_brand_some_shape hc with h1 | h1 <;>
                          rw [h1] <;>
                          exact prepared_save_key env db url _ user_id pid _
                            hp rfl rfl
                    | none =>
                        simp only [hg, hc]
                        obtain ⟨suffix, hsuf, hreason, hou, hfu, hfc⟩ :=
                          handle_new_brand_shape env db
                            (get_final_url env url).1 t.name
                            (some t.domain) none "text"
                        obtain ⟨row, hrow, hurl, huid⟩ :=
                          prepared_save_key env
                            (handle_new_brand_detection env db
                              (get_final_url env url).1 t.name
                              (some t.domain) none "text").2 url
                            (handle_new_brand_detection env db
                              (get_final_url env url).1 t.name
                              (some t.domain) none "text").1
                            user_id pid
                            (match env.crp with
                              | .ok b => b | .error _ => false)
                            hp hou hfu
                        refine ⟨row, ?_, hurl, huid⟩
                        rw [hrow, handle_new_brand_detections]
                | none =>
                    simp only [hg]
                    exact prepared_save_key env db url _ user_id pid _ hp
                      rfl rfl
  · intro env db url html favicon_b64 user_id save_to_db hbl hscope
    have hmiss := anon_lookup_none env db
      (if (get_final_url env url).2.has_redirect then url
       else (get_final_url env url).1) hscope
    unfold phishing_detector_base64
    simp only [hmiss]
    cases hs : (get_final_url env url).2.suspicious_original
        && (get_final_url env url).2.has_redirect with
    | true =>
        simp only [hs, if_true]
        refine ⟨_, rfl, ?_⟩
        rw [capture_from_cache, prepare_from_cache]
    | false =>
        simp only [hs, Bool.false_eq_true, if_false, check_whitelist,
          get_brand_list, hbl, if_true]
        cases hw : db.brands.find? (fun b =>
            optStrTruthy b.officialDomain
              && strLower (b.officialDomain.getD "")
                  == extract_root_domain (get_final_url env url).1) with
        | some w =>
            simp only [hw, Option.map_some', optStrTruthy]
            cases ht : strTruthy w.brand_name with
            | true =>
                simp only [ht, if_true]
                refine ⟨_, rfl, ?_⟩
                rw [capture_from_cache, prepare_from_cache]
            | false =>
                simp only [ht, Bool.false_eq_true, if_false]
                cases hf : (if (strTruthy favicon_b64
                    && strTruthy (strTrim favicon_b64)) = true then
                    detect_brand_from_favicon env clipThreshold else none) with
                | some hit =>
                    simp only [hf]
                    refine ⟨_, rfl, ?_⟩
                    rw [capture_from_cache, prepare_from_cache]
                    split <;> rfl
                | none =>
                    simp only [hf]
                    cases hg : extract_brand_from_text_gemini env
                        (get_final_url env url).1 with
                    | some t =>
                        cases hc : check_brand_and_domain_match env db
                            (get_final_url env url).1 t.name with
                        | some result =>
                            simp only [hg, hc]
                            refine ⟨_, rfl, ?_⟩
                            rw [capture_from_cache, prepare_from_cache]
                            rcases check_brand_some_shape hc with h1 | h1 <;>
                              rw [h1]
                        | none =>
                            simp only [hg, hc]
                            refine ⟨_, rfl, ?_⟩
                            rw [capture_from_cache, prepare_from_cache]
                            obtain ⟨suffix, hsuf, hreason, hou, hfu, hfc⟩ :=
                              handle_new_brand_shape env db
                                (get_final_url env url).1 t.name
                                (some t.domain) none "text"
                            exact hfc
                    | none =>
                        simp only [hg]
                        refine ⟨_, rfl, ?_⟩
                        rw [capture_from_cache, prepare_from_cache]
        | none =>
            simp only [hw, Option.map_none', optStrTruthy]
            simp only [Bool.false_eq_true, if_false]
            cases hf : (if (strTruthy favicon_b64
                && strTruthy (strTrim favicon_b64)) = true then
                detect_brand_from_favicon env clipThreshold else none) with
            | some hit =>
                simp only [hf]
                refine ⟨_, rfl, ?_⟩
                rw [capture_from_cache, prepare_from_cache]
                split <;> rfl
            | none =>
                simp only [hf]
                cases hg : extract_brand_from_text_gemini env
                    (get_final_url env url).1 with
                | some t =>
                    cases hc : check_brand_and_domain_match env db
                        (get_final_url env url).1 t.name with
                    | some result =>
                        simp only [hg, hc]
                        refine ⟨_, rfl, ?_⟩
                        rw [capture_from_cache, prepare_from_cache]
                        rcases check_brand_some_shape hc with h1 | h1 <;>
                          rw [h1]
                    | none =>
                        simp only [hg, hc]
                        refine ⟨_, rfl, ?_⟩
                        rw [capture_from_cache, prepare_from_cache]
                        obtain ⟨suffix, hsuf, hreason, hou, hfu, hfc⟩ :=
                          handle_new_brand_shape env db
                            (get_final_url env url).1 t.name
                            (some t.domain) none "text"
                        exact hfc
                | none =>
                    simp only [hg]
                    refine ⟨_, rfl, ?_⟩
                    rw [capture_from_cache, prepare_from_cache]
  · intro env db u uid r h
    exact cached_scope env db u uid r h

/-- Witness for C6's amended statement: the store-side key and scope for the
redirected run of user 7, the guaranteed miss against a user-scoped store, and
the scope-isolation of the service-level lookup. -/
theorem C6_cache_key_and_scope_amended_witness :
    ((envToB.brandListOk = true
        ∧ get_cached_result envToB dbEmpty
            (if (get_final_url envToB "http://a.com/r").2.has_redirect
             then "http://a.com/r"
             else (get_final_url envToB "http://a.com/r").1) none = none
        ∧ envToB.persist = .ok 5)
      ∧ ∃ row, ((phishing_detector_base64 envToB dbEmpty "http://a.com/r"
            "<h>" "" (some 7) true).db).detections
            = row :: dbEmpty.detections
          ∧ row.url = (if (get_final_url envToB "http://a.com/r").2.has_redirect
              then "http://a.com/r"
              else (get_final_url envToB "http://a.com/r").1)
          ∧ row.user_id = some 7)
    ∧ ((∀ row ∈ dbScoped.detections, row.user_id ≠ none)
      ∧ ∃ r, (phishing_detector_base64 envToB dbScoped "http://a.com/r" "<h>"
            "" (some 7) true).outcome = .ok r ∧ r.from_cache = false)
    ∧ (get_cached_result envToB dbScoped "http://a.com/r" (some 7)
        = some { is_phish := 0, reason := "x", detected_brand := some "",
                 similarity := some 0, is_crp := some false,
                 detection_id := some 1, from_cache := true }
      ∧ ∃ row ∈ dbScoped.detections,
          row.url = "http://a.com/r" ∧ row.user_id = some 7) :=
  ⟨⟨⟨by decide, by decide, by rfl⟩,
      C6_cache_key_and_scope_amended.1 envToB dbEmpty "http://a.com/r" "<h>"
        "" (some 7) 5 (by decide) (by decide) (by rfl)⟩,
    ⟨by decide,
      C6_cache_key_and_scope_amended.2.1 envToB dbScoped "http://a.com/r"
        "<h>" "" (some 7) true (by decide) (by decide)⟩,
    ⟨by rfl,
      C6_cache_key_and_scope_amended.2.2.1 envToB dbScoped "http://a.com/r"
        (some 7)
        { is_phish := 0, reason := "x", detected_brand := some "",
          similarity := some 0, is_crp := some false, detection_id := some 1,
          from_cache := true }
        (by rfl)⟩⟩

/-- Witness for C1's amended statement at the counterexample's input: both
forms agree on `is_phish` and `detected_brand` there. -/
theorem C1_forms_agree_amended_witness :
    (envText.brandListOk = true
      ∧ get_cached_result envText dbPayPal
          (if (get_final_url envText "https://bar.com/x").2.has_redirect
           then "https://bar.com/x"
           else (get_final_url envText "https://bar.com/x").1) none = none
      ∧ ((get_final_url envText "https://bar.com/x").2.suspicious_original
          && (get_final_url envText "https://bar.com/x").2.has_redirect)
            = false
      ∧ (∀ row ∈ dbPayPal.brands, row.brand_name ≠ "")
      ∧ (∀ row ∈ dbPayPal.brands, row.officialDomain ≠ none))
    ∧ ∃ r1 r2,
        (phishing_detector_base64 envText dbPayPal "https://bar.com/x" "<h>"
            "" none true).outcome = .ok r1
        ∧ (langchain_detect envText dbPayPal
            (get_final_url envText "https://bar.com/x").1 "<h>" "" none
            (get_final_url envText "https://bar.com/x").2
            (some "https://bar.com/x")).outcome = .ok r2
        ∧ r1.is_phish = r2.is_phish
        ∧ r1.detected_brand = r2.detected_brand :=
  ⟨⟨by decide, by decide, by decide, by decide, by decide⟩,
    C1_forms_agree_amended envText dbPayPal "https://bar.com/x" "<h>" "" none
      true (by decide) (by decide) (by decide) (by decide) (by decide)⟩
